import Mathlib

/-!
Shallow embedding of the live audio relay subsystem of the BUAS backend
(`src/app/streaming.py`, with its data model in `src/app/models.py`).

The Python module is driven by Flask-SocketIO handlers that run as eventlet
green threads: a handler body runs atomically relative to the other handlers
of the same process and interleaves only at explicit suspension points.  We
embed each handler as a pure function from a system state (database rows plus
the module-level process maps) to a new state together with the list of
events it emits.  Wall-clock reads (`datetime.utcnow()`) become an explicit
`now : Nat` argument (seconds).  The Redis broker publish is external output
and not part of the tracked state; the subscriber-greenlet registry
(`redis_subscribers`) is tracked as the set of device ids holding a greenlet.
-/

namespace Streaming

/-- Session status: the `status` column of `live_stream_sessions`
(`requested`, `active`, `stopped`, `error`). -/
inductive Status where
  | requested
  | active
  | stopped
  | error
deriving DecidableEq, Repr

/-- A row of `live_stream_sessions` (`LiveStreamSession` in `models.py`).
`listener_count` is an `Int` because the code computes
`max(0, session.listener_count - 1)` over Python ints. -/
structure Session where
  sid : Nat
  device_id : String
  started_by : Nat
  start_time : Nat
  end_time : Option Nat
  status : Status
  bytes_transferred : Nat
  duration_seconds : Int
  listener_count : Int
deriving DecidableEq, Repr

/-- A row of `stream_listeners` (`StreamListener` in `models.py`). -/
structure ListenerRow where
  rid : Nat
  session_id : Nat
  user_id : Nat
  username : String
  joined_at : Nat
  left_at : Option Nat
  duration_seconds : Int
deriving DecidableEq, Repr

/-- A row of `device_info` (`DeviceInfo`), restricted to the two identity
columns the streaming module reads. -/
structure DeviceRec where
  device_id : String
  android_id : String
deriving DecidableEq, Repr

/-- The relational state: session and listener tables plus the autoincrement
counters that produce fresh primary keys. -/
structure DB where
  sessions : List Session
  listeners : List ListenerRow
  nextSessionId : Nat
  nextListenerId : Nat
deriving DecidableEq, Repr

/-- The in-memory per-device stats accumulator
(`stream_stats[device_id] = {'bytes', 'chunks', 'last_flush'}`). -/
structure StreamStat where
  bytes : Nat
  chunks : Nat
  last_flush : Nat
deriving DecidableEq, Repr

/-- Lookup in an association list modelling a Python dict keyed by device id. -/
def dlookup {β : Type} (m : List (String × β)) (k : String) : Option β :=
  (m.find? (fun p => p.fst == k)).map Prod.snd

/-- `k in m` for the dict model. -/
def dmem {β : Type} (m : List (String × β)) (k : String) : Bool :=
  (dlookup m k).isSome

/-- `m[k] = v` for the dict model (replaces any previous binding). -/
def dinsert {β : Type} (m : List (String × β)) (k : String) (v : β) :
    List (String × β) :=
  (m.filter (fun p => p.fst != k)) ++ [(k, v)]

/-- `del m[k]` (as guarded in the code by `if k in m`). -/
def derase {β : Type} (m : List (String × β)) (k : String) : List (String × β) :=
  m.filter (fun p => p.fst != k)

/-- The whole per-process state: the database plus the module-level maps
`active_sessions`, `device_sockets`, `listener_counts`, `redis_subscribers`
and `stream_stats` of `streaming.py`. -/
structure SysState where
  db : DB
  active_sessions : List (String × Nat)
  device_sockets : List (String × String)
  listener_counts : List (String × Int)
  redis_subscribers : List String
  stream_stats : List (String × StreamStat)
deriving DecidableEq, Repr

/-- `LiveStreamSession.query.get(session_id)`. -/
def getSession (db : DB) (session_id : Nat) : Option Session :=
  db.sessions.find? (fun s => s.sid == session_id)

/-- Write back a (mutated) session row by primary key. -/
def setSession (db : DB) (s : Session) : DB :=
  { db with sessions := db.sessions.map (fun t => if t.sid == s.sid then s else t) }

/-- Write back a (mutated) listener row by primary key. -/
def setListener (db : DB) (l : ListenerRow) : DB :=
  { db with listeners := db.listeners.map (fun t => if t.rid == l.rid then l else t) }

/-- `DeviceInfo.query.filter_by(android_id=...).first()`. -/
def findByAndroidId (devices : List DeviceRec) (androidId : String) :
    Option DeviceRec :=
  devices.find? (fun d => d.android_id == androidId)

/-- `device_utils.get_android_id_for_device`: look the device up by its
canonical id and return its `android_id`. -/
def get_android_id_for_device (devices : List DeviceRec) (device_id : String) :
    Option String :=
  (devices.find? (fun d => d.device_id == device_id)).map (fun d => d.android_id)

/-- Lines 703-710 of `streaming.py`: take the final byte count from the
in-memory accumulator when one is present, then mark the session stopped
with its end time and duration. -/
def finalizeSession (session : Session) (stats : Option StreamStat)
    (now : Nat) : Session :=
  let session :=
    match stats with
    | some stat => { session with bytes_transferred := stat.bytes }
    | none => session
  { session with
    status := Status.stopped
    end_time := some now
    duration_seconds := (now : Int) - (session.start_time : Int) }

/-- Lines 718-720 of `streaming.py`: close a still-open listener row of the
stopping session at the session end time. -/
def closeRow (session_id : Nat) (now : Nat) (l : ListenerRow) : ListenerRow :=
  if l.session_id == session_id && l.left_at == none then
    { l with left_at := some now
             duration_seconds := (now : Int) - (l.joined_at : Int) }
  else l

/-- `stop_stream_session(session_id, reason)` (`streaming.py:687`).
If the session exists: the device's `active_sessions` entry is removed first,
then the final byte count is read from `stream_stats` (when present), the
session is marked stopped with end time and duration, every still-open
listener row is closed at the session end time, and the remaining tracking
dicts (`listener_counts`, `redis_subscribers`, `stream_stats`) are cleaned.
`reason` only reaches the audit log, which is external output. -/
def stop_stream_session (st : SysState) (now : Nat) (session_id : Nat)
    (reason : String) : SysState :=
  match getSession st.db session_id with
  | none => st
  | some session =>
    let _ := reason
    let device_id := session.device_id
    let active_sessions' := derase st.active_sessions device_id
    let session := finalizeSession session (dlookup st.stream_stats device_id) now
    let db := setSession st.db session
    let db := { db with listeners := db.listeners.map (closeRow session_id now) }
    { st with
      db := db
      active_sessions := active_sessions'
      listener_counts := derase st.listener_counts device_id
      redis_subscribers := st.redis_subscribers.filter (fun d => d != device_id)
      stream_stats := derase st.stream_stats device_id }

/-- `handle_audio_chunk(data)` (`streaming.py:445`): resolve the payload's
android id to a canonical device id; if that device has an entry in
`active_sessions`, add `len(chunk) * 3 // 4` to the in-memory byte
accumulator and bump the chunk counter.  The Redis publish does not touch
tracked state and the stats update happens whether or not Redis is up. -/
def handle_audio_chunk (devices : List DeviceRec) (st : SysState) (now : Nat)
    (android_id_from_payload chunk_data : String) : SysState :=
  if android_id_from_payload == "" || chunk_data == "" then st
  else
    match findByAndroidId devices android_id_from_payload with
    | none => st
    | some device =>
      let device_id := device.device_id
      if dmem st.active_sessions device_id then
        let stat := (dlookup st.stream_stats device_id).getD
          { bytes := 0, chunks := 0, last_flush := now }
        let chunk_bytes := chunk_data.length * 3 / 4
        let stat' := { stat with bytes := stat.bytes + chunk_bytes, chunks := stat.chunks + 1 }
        { st with stream_stats := dinsert st.stream_stats device_id stat' }
      else st

/-- The authenticated caller of a viewer-side handler: `current_user` with
its id, username, `is_authenticated` flag and the RBAC check
`can_access_device` (an external collaborator, modelled as an oracle). -/
structure UserCtx where
  uid : Nat
  username : String
  is_authenticated : Bool
  can_access_device : String → Bool

/-- The messages a handler emits (`emit` / `socketio.emit`).  Events whose
room or socket target matters carry it: `listener_count_update` and
`stream_started` go to the room `listeners_{device_id}` identified by their
`device_id` field, `send_header` and `stream_stop` go to the producer
socket. -/
inductive Event where
  | stream_error (msg : String)
  | stream_requested (session_id : Nat) (device_id : String)
  | stream_joined (session_id : Nat) (device_id : String) (listener_count : Int)
      (needs_header : Bool)
  | listener_count_update (session_id : Nat) (device_id : String)
      (listener_count : Int)
  | stream_started (session_id : Nat) (device_id : String) (listener_count : Int)
  | send_header (session_id : Nat) (socket : String)
  | stream_stop (session_id : Nat) (reason : String)
deriving DecidableEq, Repr

/-- Tail of `handle_stream_request` (`streaming.py:308`): create a fresh
`requested` session with `listener_count = 1`, record it in
`active_sessions` and `listener_counts`, add the caller's listener row, and
tell the caller to wait. -/
def create_new_session (user : UserCtx) (st : SysState) (now : Nat)
    (device_id : String) : SysState × List Event :=
  let sid := st.db.nextSessionId
  let session : Session := {
    sid := sid, device_id := device_id, started_by := user.uid,
    start_time := now, end_time := none, status := Status.requested,
    bytes_transferred := 0, duration_seconds := 0, listener_count := 1 }
  let db := { st.db with
    sessions := st.db.sessions ++ [session], nextSessionId := sid + 1 }
  let rid := db.nextListenerId
  let row : ListenerRow := {
    rid := rid, session_id := sid, user_id := user.uid,
    username := user.username, joined_at := now, left_at := none,
    duration_seconds := 0 }
  let db := { db with
    listeners := db.listeners ++ [row], nextListenerId := rid + 1 }
  let st := { st with
    db := db
    active_sessions := dinsert st.active_sessions device_id sid
    listener_counts := dinsert st.listener_counts device_id 1 }
  (st, [Event.stream_requested sid device_id])

/-- Branch of `handle_stream_request` for a fresh `requested` session
(`streaming.py:219`): add a listener row, bump both counters, and tell the
caller to keep waiting. -/
def join_pending (user : UserCtx) (st : SysState) (now : Nat)
    (device_id : String) (session_id : Nat) (session : Session) :
    SysState × List Event :=
  let rid := st.db.nextListenerId
  let row : ListenerRow := {
    rid := rid, session_id := session_id, user_id := user.uid,
    username := user.username, joined_at := now, left_at := none,
    duration_seconds := 0 }
  let db := { st.db with
    listeners := st.db.listeners ++ [row], nextListenerId := rid + 1 }
  let session := { session with listener_count := session.listener_count + 1 }
  let db := setSession db session
  let lc := ((dlookup st.listener_counts device_id).getD 0) + 1
  let st := { st with
    db := db
    listener_counts := dinsert st.listener_counts device_id lc }
  (st, [Event.stream_requested session_id device_id])

/-- Branch of `handle_stream_request` for an `active` session
(`streaming.py:246`): add a listener row, bump both counters, answer the
joiner (`needs_header = true`), broadcast the new count to the room, and ask
the producer for a header resend when its socket is known. -/
def join_active (user : UserCtx) (st : SysState) (now : Nat)
    (device_id : String) (session_id : Nat) (session : Session) :
    SysState × List Event :=
  let rid := st.db.nextListenerId
  let row : ListenerRow := {
    rid := rid, session_id := session_id, user_id := user.uid,
    username := user.username, joined_at := now, left_at := none,
    duration_seconds := 0 }
  let db := { st.db with
    listeners := st.db.listeners ++ [row], nextListenerId := rid + 1 }
  let session := { session with listener_count := session.listener_count + 1 }
  let db := setSession db session
  let lc := ((dlookup st.listener_counts device_id).getD 0) + 1
  let st' := { st with
    db := db
    listener_counts := dinsert st.listener_counts device_id lc }
  let evs := [Event.stream_joined session_id device_id session.listener_count true,
              Event.listener_count_update session_id device_id session.listener_count]
  let evs :=
    match dlookup st.device_sockets device_id with
    | some sock => evs ++ [Event.send_header session_id sock]
    | none => evs
  (st', evs)

/-- `handle_stream_request(data)` (`streaming.py:155`).  `resolve` is
`device_utils.resolve_to_device_id`, the identity-resolver collaborator,
taken as a parameter.  After authentication/registration/permission checks:
if the device has a tracked session that is fresh `requested` the caller
joins it, a stale (> 120 s) `requested` one is torn down (`timeout`) and
replaced, an `active` one is joined, a terminal one is untracked and
replaced; otherwise a new session is created. -/
def handle_stream_request (devices : List DeviceRec) (resolve : String → String)
    (user : UserCtx) (st : SysState) (now : Nat) (device_id_param : String) :
    SysState × List Event :=
  if !user.is_authenticated then (st, [Event.stream_error "Authentication required"])
  else if device_id_param == "" then (st, [Event.stream_error "Device ID required"])
  else
    let device_id := resolve device_id_param
    match devices.find? (fun d => d.device_id == device_id) with
    | none => (st, [Event.stream_error "Device not found"])
    | some _device =>
      if !user.can_access_device device_id then
        (st, [Event.stream_error "Access denied to this device"])
      else
        match dlookup st.active_sessions device_id with
        | some session_id =>
          match getSession st.db session_id with
          | some session =>
            if session.status == Status.requested then
              if (now : Int) - (session.start_time : Int) > 120 then
                let st := stop_stream_session st now session_id "timeout"
                let st := { st with
                  active_sessions := derase st.active_sessions device_id
                  listener_counts := derase st.listener_counts device_id }
                create_new_session user st now device_id
              else
                join_pending user st now device_id session_id session
            else if session.status == Status.active then
              join_active user st now device_id session_id session
            else
              let st := { st with
                active_sessions := derase st.active_sessions device_id
                listener_counts := derase st.listener_counts device_id }
              create_new_session user st now device_id
          | none => create_new_session user st now device_id
        | none => create_new_session user st now device_id

/-- One decimal digit, as Python's `int()` accepts it. -/
def digitVal (c : Char) : Option Nat :=
  if c = '0' then some 0 else if c = '1' then some 1 else if c = '2' then some 2
  else if c = '3' then some 3 else if c = '4' then some 4 else if c = '5' then some 5
  else if c = '6' then some 6 else if c = '7' then some 7 else if c = '8' then some 8
  else if c = '9' then some 9 else none

/-- Model of Python's `int(str)` on the nonnegative decimal strings the
session-id payloads use (`none` models the `ValueError` branch). -/
def parse_int (s : String) : Option Nat :=
  s.data.foldl (fun acc c =>
    match acc, digitVal c with
    | some n, some d => some (n * 10 + d)
    | _, _ => none) (if s.data.isEmpty then none else some 0)

/-- `start_redis_subscriber(device_id)` (`streaming.py:574`): when Redis is
up, spawn the subscriber greenlet and track it in `redis_subscribers`. -/
def start_redis_subscriber (redis_ok : Bool) (st : SysState)
    (device_id : String) : SysState :=
  if !redis_ok then st
  else { st with redis_subscribers := st.redis_subscribers ++ [device_id] }

/-- `handle_stream_ready(data)` (`streaming.py:363`): resolve the producer's
android id, parse the session id, fetch the session, and accept when the
session's device id matches either the canonical id directly or that id's
android alias.  On success the session turns `active`, the room is told
`stream_started` with the current listener count, and a subscriber is
started unless one is already tracked. -/
def handle_stream_ready (devices : List DeviceRec) (redis_ok : Bool)
    (st : SysState) (android_id_from_payload session_id_str : String) :
    SysState × List Event :=
  if android_id_from_payload == "" || session_id_str == "" then (st, [])
  else
    match findByAndroidId devices android_id_from_payload with
    | none => (st, [Event.stream_error "Device not found"])
    | some device =>
      let device_id := device.device_id
      match parse_int session_id_str with
      | none => (st, [Event.stream_error "Invalid session ID"])
      | some session_id =>
        match getSession st.db session_id with
        | none => (st, [Event.stream_error "Session not found"])
        | some session =>
          let session_device_id := session.device_id
          let device_match := (session_device_id == device_id) ||
            (match get_android_id_for_device devices device_id with
             | some aid => session_device_id == aid
             | none => false)
          if !device_match then (st, [Event.stream_error "Session device mismatch"])
          else
            let session := { session with status := Status.active }
            let st := { st with db := setSession st.db session }
            let evs := [Event.stream_started session_id device_id session.listener_count]
            if st.redis_subscribers.contains device_id then (st, evs)
            else (start_redis_subscriber redis_ok st device_id, evs)

/-- `handle_leave_stream(data)` (`streaming.py:506`): for an authenticated
caller, when the device has a tracked session and the caller an open
listener row in it, close the row, decrement the session count (floored at
0), broadcast the count, and tear the session down (`no_listeners`, after a
`stream_stop` to the producer) when the count reaches zero. -/
def handle_leave_stream (user : UserCtx) (st : SysState) (now : Nat)
    (device_id : String) : SysState × List Event :=
  if !user.is_authenticated then (st, [])
  else if device_id == "" then (st, [])
  else
    match dlookup st.active_sessions device_id with
    | none => (st, [])
    | some session_id =>
      match st.db.listeners.find? (fun l =>
          l.session_id == session_id && l.user_id == user.uid &&
          l.left_at == none) with
      | none => (st, [])
      | some listener =>
        let listener := { listener with
          left_at := some now
          duration_seconds := (now : Int) - (listener.joined_at : Int) }
        let db := setListener st.db listener
        match getSession db session_id with
        | none => ({ st with db := db }, [])
        | some session =>
          let session := { session with
            listener_count := max 0 (session.listener_count - 1) }
          let db := setSession db session
          let st := { st with
            db := db
            listener_counts := dinsert st.listener_counts device_id
              session.listener_count }
          let evs := [Event.listener_count_update session_id device_id
            session.listener_count]
          if session.listener_count == 0 then
            (stop_stream_session st now session_id "no_listeners",
             evs ++ [Event.stream_stop session_id "no_listeners"])
          else (st, evs)

/-- One iteration of the loop body of `handle_user_disconnect`
(`streaming.py:86`): close the listener row, decrement its session's count
(floored at 0), mirror the count in `listener_counts`, and stop the session
when the count reaches zero. -/
def disconnect_one (st : SysState) (now : Nat) (rid : Nat) : SysState :=
  match st.db.listeners.find? (fun l => l.rid == rid) with
  | none => st
  | some listener =>
    let listener := { listener with
      left_at := some now
      duration_seconds := (now : Int) - (listener.joined_at : Int) }
    let db := setListener st.db listener
    match getSession db listener.session_id with
    | none => { st with db := db }
    | some session =>
      let session := { session with
        listener_count := max 0 (session.listener_count - 1) }
      let db := setSession db session
      let st := { st with
        db := db
        listener_counts := dinsert st.listener_counts session.device_id
          session.listener_count }
      if session.listener_count == 0 then
        stop_stream_session st now session.sid "no_listeners"
      else st

/-- `handle_user_disconnect()` (`streaming.py:73`): take the snapshot of the
caller's open listener rows, then process each in order. -/
def handle_user_disconnect (user : UserCtx) (st : SysState) (now : Nat) :
    SysState :=
  if !user.is_authenticated then st
  else
    let snapshot := (st.db.listeners.filter (fun l =>
      l.user_id == user.uid && l.left_at == none)).map (fun l => l.rid)
    snapshot.foldl (fun s r => disconnect_one s now r) st

/-- `handle_device_connect()` (`streaming.py:113`): register the producer
socket for a device known by its android id. -/
def handle_device_connect (devices : List DeviceRec) (st : SysState)
    (android_id socket_id : String) : SysState :=
  if android_id == "" then st
  else
    match findByAndroidId devices android_id with
    | none => st
    | some device =>
      { st with device_sockets := dinsert st.device_sockets device.device_id socket_id }

/-- `handle_device_disconnect()` (`streaming.py:135`): find the device that
owned the socket, forget the socket, and tear down its tracked session. -/
def handle_device_disconnect (st : SysState) (now : Nat) (socket_id : String) :
    SysState :=
  match st.device_sockets.find? (fun p => p.snd == socket_id) with
  | none => st
  | some p =>
    let device_id := p.fst
    let st := { st with device_sockets := derase st.device_sockets device_id }
    match dlookup st.active_sessions device_id with
    | none => st
    | some session_id => stop_stream_session st now session_id "device_disconnected"

/-- One entry of the flush loop of `flush_stream_stats` (`streaming.py:659`):
for a device still tracked whose session exists, write the accumulated byte
count into the session and stamp `last_flush`; drop the accumulator of an
untracked device. -/
def flush_one (st : SysState) (now : Nat) (dev_stat : String × StreamStat) :
    SysState :=
  let device_id := dev_stat.fst
  match dlookup st.active_sessions device_id with
  | some session_id =>
    match getSession st.db session_id with
    | some session =>
      let session := { session with bytes_transferred := dev_stat.snd.bytes }
      let stats' :=
        match dlookup st.stream_stats device_id with
        | some cur => dinsert st.stream_stats device_id { cur with last_flush := now }
        | none => st.stream_stats
      { st with db := setSession st.db session, stream_stats := stats' }
    | none => st
  | none => { st with stream_stats := derase st.stream_stats device_id }

/-- One wake-up of the background flusher (`streaming.py:637`): iterate the
snapshot of `stream_stats` taken at the start of the loop. -/
def flush_stream_stats_once (st : SysState) (now : Nat) : SysState :=
  st.stream_stats.foldl (fun s p => flush_one s now p) st

/-- The external stimuli one process reacts to: one constructor per
Socket.IO handler of `streaming.py`, plus the flusher wake-up.  Each carries
the wall-clock second at which the handler runs; handlers run atomically
with respect to one another (eventlet green threads yield only at the
suspension points between handler invocations). -/
inductive Act where
  | request (resolve : String → String) (user : UserCtx) (now : Nat)
      (device_id_param : String)
  | ready (redis_ok : Bool) (android_id session_id_str : String)
  | chunk (now : Nat) (android_id chunk_data : String)
  | leave (user : UserCtx) (now : Nat) (device_id : String)
  | user_disconnect (user : UserCtx) (now : Nat)
  | device_connect (android_id socket_id : String)
  | device_disconnect (now : Nat) (socket_id : String)
  | flush (now : Nat)

/-- Dispatch one stimulus to its handler, keeping only the state. -/
def applyAct (devices : List DeviceRec) (st : SysState) : Act → SysState
  | Act.request resolve user now p =>
      (handle_stream_request devices resolve user st now p).fst
  | Act.ready redis_ok aid sid_str =>
      (handle_stream_ready devices redis_ok st aid sid_str).fst
  | Act.chunk now aid c => handle_audio_chunk devices st now aid c
  | Act.leave user now dev => (handle_leave_stream user st now dev).fst
  | Act.user_disconnect user now => handle_user_disconnect user st now
  | Act.device_connect aid sock => handle_device_connect devices st aid sock
  | Act.device_disconnect now sock => handle_device_disconnect st now sock
  | Act.flush now => flush_stream_stats_once st now

/-- Run a whole trace of stimuli. -/
def run (devices : List DeviceRec) (st : SysState) (acts : List Act) : SysState :=
  acts.foldl (applyAct devices) st

/-- The state of a freshly started process over an empty database. -/
def initState : SysState := {
  db := { sessions := [], listeners := [], nextSessionId := 0, nextListenerId := 0 }
  active_sessions := []
  device_sockets := []
  listener_counts := []
  redis_subscribers := []
  stream_stats := [] }

/-- `true` for sessions in a non-terminal status (`requested` or `active`). -/
def nonTerminalB (s : Session) : Bool :=
  s.status == Status.requested || s.status == Status.active

/-- Number of sessions of a device that are in status `requested` or
`active`. -/
def liveSessionCount (db : DB) (dev : String) : Nat :=
  (db.sessions.filter (fun s => nonTerminalB s && s.device_id == dev)).length

/-- Number of listener rows of a session with `left_at` still null. -/
def openRows (db : DB) (sid : Nat) : Nat :=
  (db.listeners.filter (fun l => l.session_id == sid && l.left_at == none)).length

/-- The session a `stream_ready` message addresses, when every lookup on the
way succeeds (payload non-empty, device known, session id parses and
exists). -/
def ready_target (devices : List DeviceRec) (db : DB)
    (android_id session_id_str : String) : Option Session :=
  if android_id == "" || session_id_str == "" then none
  else
    match findByAndroidId devices android_id with
    | none => none
    | some _ =>
      match parse_int session_id_str with
      | none => none
      | some session_id => getSession db session_id

/-- Guard on stimuli: a `stream_ready` runs with Redis up and only addresses
a session that is still non-terminal.  The source accepts a `stream_ready`
for an already-stopped session (it checks only the device match, never the
status), which is exactly the behaviour the counterexamples below exercise;
the amended invariants hold for traces restricted by this guard. -/
def goodAct (devices : List DeviceRec) (st : SysState) : Act → Prop
  | Act.ready redis_ok aid sid_str =>
      redis_ok = true ∧
      ∀ s, ready_target devices st.db aid sid_str = some s → nonTerminalB s = true
  | _ => True

/-- States reachable from a fresh process by guarded stimuli. -/
inductive GReach (devices : List DeviceRec) : SysState → Prop where
  | init : GReach devices initState
  | step (st : SysState) (a : Act) : GReach devices st → goodAct devices st a →
      GReach devices (applyAct devices st a)

/-- Registry sanity: no canonical device id doubles as an android id of any
device (the two alias namespaces are disjoint), and canonical ids are
unique. -/
def RegistryWF (devices : List DeviceRec) : Prop :=
  (∀ d ∈ devices, ∀ d' ∈ devices, d.device_id ≠ d'.android_id) ∧
  (devices.map DeviceRec.device_id).Nodup

/-- The inductive invariant of one process, tying the durable rows to the
process-local maps.  Its clauses: primary keys are fresh and unique; every
tracked device points at an existing, non-terminal session of that device;
every non-terminal session is tracked under its device id; open listener
rows belong to non-terminal sessions; a non-terminal session's
`listener_count` equals its number of open rows; the subscriber registry
holds exactly the devices with an `active` session, without duplicates; and
session device ids come from the registry. -/
structure Inv (devices : List DeviceRec) (st : SysState) : Prop where
  sid_fresh : ∀ s ∈ st.db.sessions, s.sid < st.db.nextSessionId
  sid_unique : (st.db.sessions.map Session.sid).Nodup
  rid_fresh : ∀ l ∈ st.db.listeners, l.rid < st.db.nextListenerId
  rid_unique : (st.db.listeners.map ListenerRow.rid).Nodup
  row_sid_fresh : ∀ l ∈ st.db.listeners, l.session_id < st.db.nextSessionId
  mapped_exists : ∀ dev sid, dlookup st.active_sessions dev = some sid →
    (getSession st.db sid).isSome
  mapped_dev : ∀ dev sid s, dlookup st.active_sessions dev = some sid →
    getSession st.db sid = some s → s.device_id = dev
  live_mapped : ∀ s ∈ st.db.sessions, nonTerminalB s = true →
    dlookup st.active_sessions s.device_id = some s.sid
  open_row_live : ∀ l ∈ st.db.listeners, l.left_at = none →
    ∀ s, getSession st.db l.session_id = some s → nonTerminalB s = true
  count_rows : ∀ s ∈ st.db.sessions, nonTerminalB s = true →
    s.listener_count = (openRows st.db s.sid : Int)
  subs_iff : ∀ dev, dev ∈ st.redis_subscribers ↔
    ∃ s ∈ st.db.sessions, s.device_id = dev ∧ s.status = Status.active
  subs_nodup : st.redis_subscribers.Nodup
  dev_registered : ∀ s ∈ st.db.sessions, ∃ d ∈ devices, s.device_id = d.device_id

/-- `rid` names a still-open listener row of `st`. -/
def OpenRid (st : SysState) (rid : Nat) : Prop :=
  ∃ l ∈ st.db.listeners, l.rid = rid ∧ l.left_at = none

/-! ### Concrete fixtures

A one-device registry and two dashboard users, used to instantiate the
theorems on concrete runs.  `exResolve` agrees with
`device_utils.resolve_to_device_id` on every identifier these runs pass it:
on this registry the resolver maps `"D1"` to itself (the final
`device_id` lookup succeeds). -/

/-- Registry with one device: canonical id `D1`, android id `A1`. -/
def exDevices : List DeviceRec := [{ device_id := "D1", android_id := "A1" }]

/-- First dashboard user. -/
def exAlice : UserCtx :=
  { uid := 1, username := "alice", is_authenticated := true
    can_access_device := fun _ => true }

/-- Second dashboard user. -/
def exBob : UserCtx :=
  { uid := 2, username := "bob", is_authenticated := true
    can_access_device := fun _ => true }

/-- The identity resolver as it behaves on these runs' inputs. -/
def exResolve : String → String := fun s => s

/-- `exAlice` requests a stream for `D1` at `t = 0`: session 0 `requested`. -/
def exS1 : SysState :=
  (handle_stream_request exDevices exResolve exAlice initState 0 "D1").fst

/-- `exBob` requests at `t = 121`: session 0 is torn down (`timeout`) and
session 1 is created `requested`. -/
def exS2 : SysState :=
  (handle_stream_request exDevices exResolve exBob exS1 121 "D1").fst

/-- A late `stream_ready` for the stopped session 0: the handler checks only
the device match, so session 0 is flipped back to `active`. -/
def exS3 : SysState := (handle_stream_ready exDevices true exS2 "A1" "0").fst

/-- `exBob` leaves: session 1 is torn down (`no_listeners`), removing the
`D1` subscriber while session 0 is still `active`. -/
def exS4 : SysState := (handle_leave_stream exBob exS3 122 "D1").fst

/-- A session row whose device id matches neither `D1` nor `A1`, for the
mismatched `stream_ready` scenario. -/
def exForeignSession : Session :=
  { sid := 0, device_id := "OTHER", started_by := 1, start_time := 0,
    end_time := none, status := Status.requested, bytes_transferred := 0,
    duration_seconds := 0, listener_count := 1 }

/-- A state holding only `exForeignSession`. -/
def exForeign : SysState :=
  { db := { sessions := [exForeignSession], listeners := [],
            nextSessionId := 1, nextListenerId := 0 }
    active_sessions := [("OTHER", 0)]
    device_sockets := []
    listener_counts := [("OTHER", 1)]
    redis_subscribers := []
    stream_stats := [] }

/-- `exS1` after one accepted audio chunk of text length 5 (3 bytes). -/
def exC1 : SysState := handle_audio_chunk exDevices exS1 5 "A1" "abcde"

/-- The session row of `exS1` (and `exC1`): session 0, `requested`. -/
def exSession0 : Session :=
  { sid := 0, device_id := "D1", started_by := 1, start_time := 0,
    end_time := none, status := Status.requested, bytes_transferred := 0,
    duration_seconds := 0, listener_count := 1 }

end Streaming

namespace Streaming

/-! ### Dictionary and table lemmas -/

theorem find?_filter_imp {α : Type} (l : List α) (p q : α → Bool)
    (h : ∀ x, p x = true → q x = true) :
    (l.filter q).find? p = l.find? p := by
  induction l with
  | nil => rfl
  | cons a t ih =>
    by_cases hq : q a = true
    · by_cases hp : p a = true
      · simp [List.filter_cons, hq, List.find?_cons, hp]
      · simp only [Bool.not_eq_true] at hp
        simp [List.filter_cons, hq, List.find?_cons, hp, ih]
    · have hp : p a = false := by
        cases hpa : p a
        · rfl
        · exact absurd (h a hpa) hq
      simp only [Bool.not_eq_true] at hq
      simp [List.filter_cons, hq, List.find?_cons, hp, ih]

theorem dlookup_dinsert_self {β : Type} (m : List (String × β)) (k : String)
    (v : β) : dlookup (dinsert m k v) k = some v := by
  have hnone : (m.filter (fun p => p.fst != k)).find? (fun p => p.fst == k) = none := by
    rw [List.find?_eq_none]
    intro x hx
    rcases List.mem_filter.mp hx with ⟨-, hne⟩
    simpa using bne_iff_ne.mp hne
  simp [dlookup, dinsert, List.find?_append, hnone, List.find?_cons]

theorem dlookup_dinsert_ne {β : Type} (m : List (String × β)) (k k' : String)
    (v : β) (h : k' ≠ k) : dlookup (dinsert m k v) k' = dlookup m k' := by
  have hfil : (m.filter (fun p => p.fst != k)).find? (fun p => p.fst == k') =
      m.find? (fun p => p.fst == k') := by
    refine find?_filter_imp m _ _ (fun x hx => ?_)
    have : x.fst = k' := by simpa using hx
    simp [this, h]
  cases hfind : m.find? (fun p => p.fst == k') with
  | none =>
    simp [dlookup, dinsert, List.find?_append, hfil, hfind, List.find?_cons,
      Ne.symm h]
  | some p =>
    simp [dlookup, dinsert, List.find?_append, hfil, hfind]

theorem dlookup_derase_self {β : Type} (m : List (String × β)) (k : String) :
    dlookup (derase m k) k = none := by
  have hnone : (m.filter (fun p => p.fst != k)).find? (fun p => p.fst == k) = none := by
    rw [List.find?_eq_none]
    intro x hx
    rcases List.mem_filter.mp hx with ⟨-, hne⟩
    simpa using bne_iff_ne.mp hne
  simp [dlookup, derase, hnone]

theorem dlookup_derase_ne {β : Type} (m : List (String × β)) (k k' : String)
    (h : k' ≠ k) : dlookup (derase m k) k' = dlookup m k' := by
  have hfil : (m.filter (fun p => p.fst != k)).find? (fun p => p.fst == k') =
      m.find? (fun p => p.fst == k') := by
    refine find?_filter_imp m _ _ (fun x hx => ?_)
    have : x.fst = k' := by simpa using hx
    simp [this, h]
  simp [dlookup, derase, hfil]

theorem derase_idem {β : Type} (m : List (String × β)) (k : String) :
    derase (derase m k) k = derase m k := by
  simp [derase, List.filter_filter]

theorem dmem_iff {β : Type} (m : List (String × β)) (k : String) :
    dmem m k = true ↔ ∃ v, dlookup m k = some v := by
  cases h : dlookup m k <;> simp [dmem, h]

/-! ### Session and listener table lemmas -/

theorem getSession_mem {db : DB} {sid : Nat} {s : Session}
    (h : getSession db sid = some s) : s ∈ db.sessions ∧ s.sid = sid := by
  refine ⟨List.mem_of_find?_eq_some h, ?_⟩
  have := List.find?_some h
  simpa using this

theorem getSession_isSome_of_mem {db : DB} {s : Session}
    (hs : s ∈ db.sessions) : (getSession db s.sid).isSome := by
  rw [getSession, List.find?_isSome]
  exact ⟨s, hs, by simp⟩

theorem setSession_sessions (db : DB) (s : Session) :
    (setSession db s).sessions =
      db.sessions.map (fun t => if t.sid == s.sid then s else t) := rfl

theorem find?_replace_self (l : List Session) (s : Session)
    (h : (l.find? (fun t => t.sid == s.sid)).isSome) :
    (l.map (fun t => if t.sid == s.sid then s else t)).find?
      (fun t => t.sid == s.sid) = some s := by
  induction l with
  | nil => simp at h
  | cons a t ih =>
    rw [List.map_cons, List.find?_cons]
    by_cases ha : a.sid = s.sid
    · rw [if_pos (by simp [ha])]
      simp
    · rw [if_neg (by simp [ha])]
      have hps : (a.sid == s.sid) = false := by simp [ha]
      rw [List.find?_cons, hps] at h
      rw [hps]
      exact ih h

theorem find?_replace_ne (l : List Session) (s : Session) (sid : Nat)
    (h : sid ≠ s.sid) :
    (l.map (fun t => if t.sid == s.sid then s else t)).find?
      (fun t => t.sid == sid) = l.find? (fun t => t.sid == sid) := by
  induction l with
  | nil => rfl
  | cons a t ih =>
    rw [List.map_cons, List.find?_cons, List.find?_cons]
    by_cases ha : a.sid = s.sid
    · rw [if_pos (by simp [ha])]
      have h2 : (s.sid == sid) = false := by simp [Ne.symm h]
      have h3 : (a.sid == sid) = false := by simp [ha, Ne.symm h]
      rw [h2, h3]
      exact ih
    · rw [if_neg (by simp [ha])]
      cases hcase : (a.sid == sid)
      · exact ih
      · rfl

theorem getSession_set_self {db : DB} {s t : Session}
    (h : getSession db s.sid = some t) :
    getSession (setSession db s) s.sid = some s := by
  rw [getSession, setSession_sessions]
  exact find?_replace_self db.sessions s (by rw [getSession] at h; simp [h])

theorem getSession_set_ne {db : DB} {s : Session} {sid : Nat}
    (h : sid ≠ s.sid) :
    getSession (setSession db s) sid = getSession db sid := by
  rw [getSession, setSession_sessions, getSession]
  exact find?_replace_ne db.sessions s sid h

theorem setSession_mem {db : DB} {s t : Session}
    (h : t ∈ (setSession db s).sessions) :
    t = s ∨ (t ∈ db.sessions ∧ t.sid ≠ s.sid ∧ t ∈ db.sessions) := by
  rw [setSession_sessions] at h
  rcases List.mem_map.mp h with ⟨u, hu, hut⟩
  by_cases hsid : u.sid = s.sid
  · left
    simpa [hsid] using hut.symm
  · right
    have : t = u := by simpa [hsid] using hut.symm
    exact ⟨this ▸ hu, by simp [this, hsid], this ▸ hu⟩

theorem setSession_sids (db : DB) (s : Session) :
    (setSession db s).sessions.map Session.sid = db.sessions.map Session.sid := by
  rw [setSession_sessions, List.map_map]
  refine List.map_congr_left (fun u _ => ?_)
  by_cases h : u.sid = s.sid <;> simp [h]

theorem setListener_listeners (db : DB) (l : ListenerRow) :
    (setListener db l).listeners =
      db.listeners.map (fun t => if t.rid == l.rid then l else t) := rfl

theorem setListener_rids (db : DB) (l : ListenerRow) :
    (setListener db l).listeners.map ListenerRow.rid =
      db.listeners.map ListenerRow.rid := by
  rw [setListener_listeners, List.map_map]
  refine List.map_congr_left (fun u _ => ?_)
  by_cases h : u.rid = l.rid <;> simp [h]

theorem setListener_mem {db : DB} {l t : ListenerRow}
    (h : t ∈ (setListener db l).listeners) :
    t = l ∨ (t ∈ db.listeners ∧ t.rid ≠ l.rid) := by
  rw [setListener_listeners] at h
  rcases List.mem_map.mp h with ⟨u, hu, hut⟩
  by_cases hrid : u.rid = l.rid
  · left
    simpa [hrid] using hut.symm
  · right
    have : t = u := by simpa [hrid] using hut.symm
    exact ⟨this ▸ hu, by simp [this, hrid]⟩

/-- Counting filtered elements is unchanged by a map that does not change
the predicate's verdict on any element. -/
theorem length_filter_map_congr {α : Type} {l : List α} {f : α → α}
    {P : α → Bool} (h : ∀ x ∈ l, P (f x) = P x) :
    ((l.map f).filter P).length = (l.filter P).length := by
  induction l with
  | nil => rfl
  | cons a t ih =>
    have ha := h a (List.mem_cons_self a t)
    have ht : ∀ x ∈ t, P (f x) = P x := fun x hx => h x (List.mem_cons_of_mem a hx)
    cases hcase : P a <;>
      simp [List.filter_cons, ha, hcase, ih ht]

/-- A map that fixes every element of the list is the identity. -/
theorem map_eq_self_of_fix {α : Type} {l : List α} {f : α → α}
    (h : ∀ x ∈ l, f x = x) : l.map f = l := by
  induction l with
  | nil => rfl
  | cons a t ih =>
    have := h a (List.mem_cons_self a t)
    simp [this, ih (fun x hx => h x (List.mem_cons_of_mem a hx))]

end Streaming

namespace Streaming

/-! ### C6: mismatched `stream_ready` -/

/-- C6: a `stream_ready` whose payload alias resolves to a device that fails
both the direct match against the session's device id and the fallback
match against that canonical id's android alias produces exactly a
`stream_error` to the producer and leaves the whole state (sessions,
listeners, and every process-local map) unchanged
(`streaming.py:401-418`). -/
theorem stream_ready_mismatch_no_state_change
    (devices : List DeviceRec) (redis_ok : Bool) (st : SysState)
    (aid sid_str : String) (device : DeviceRec) (sid : Nat) (session : Session)
    (haid : aid ≠ "") (hsid : sid_str ≠ "")
    (hdev : findByAndroidId devices aid = some device)
    (hparse : parse_int sid_str = some sid)
    (hsess : getSession st.db sid = some session)
    (hdirect : session.device_id ≠ device.device_id)
    (halias : ∀ a, get_android_id_for_device devices device.device_id = some a →
      session.device_id ≠ a) :
    handle_stream_ready devices redis_ok st aid sid_str =
      (st, [Event.stream_error "Session device mismatch"]) := by
  have h1 : (aid == "") = false := by simp [haid]
  have h2 : (sid_str == "") = false := by simp [hsid]
  have hmatch : ((session.device_id == device.device_id) ||
      (match get_android_id_for_device devices device.device_id with
       | some a => session.device_id == a
       | none => false)) = false := by
    cases hga : get_android_id_for_device devices device.device_id with
    | none => simp [hdirect]
    | some a => simp [hdirect, halias a hga]
  simp [handle_stream_ready, h1, h2, hdev, hparse, hsess, hmatch]

/-- Witness for C6 on the concrete registry: a `stream_ready` from the
device with android id `A1` targeting a session owned by `OTHER`. -/
theorem stream_ready_mismatch_no_state_change_witness :
    handle_stream_ready exDevices true exForeign "A1" "0" =
      (exForeign, [Event.stream_error "Session device mismatch"]) := by
  refine stream_ready_mismatch_no_state_change exDevices true exForeign "A1" "0"
    { device_id := "D1", android_id := "A1" } 0 exForeignSession
    (by decide) (by decide) (by rfl) (by rfl) (by rfl) (by decide) ?_
  intro a ha
  have h : a = "A1" := by
    simpa [get_android_id_for_device, exDevices] using ha.symm
  rw [h]
  decide

/-! ### C10: `leave_stream` without an open listener row -/

/-- C10: an authenticated `leave_stream` for a device whose tracked session
has no open listener row of the caller — including when the device has no
tracked session — returns the state unchanged and emits nothing: no count
broadcast, no `stream_stop`, no teardown (`streaming.py:506-559`). -/
theorem leave_stream_no_open_row_noop
    (user : UserCtx) (st : SysState) (now : Nat) (device_id : String)
    (hauth : user.is_authenticated = true) (hdev : device_id ≠ "")
    (hnorow : ∀ sid, dlookup st.active_sessions device_id = some sid →
      st.db.listeners.find? (fun l => l.session_id == sid &&
        l.user_id == user.uid && l.left_at == none) = none) :
    handle_leave_stream user st now device_id = (st, []) := by
  have h2 : (device_id == "") = false := by simp [hdev]
  cases hmap : dlookup st.active_sessions device_id with
  | none => simp [handle_leave_stream, hauth, h2, hmap]
  | some sid => simp [handle_leave_stream, hauth, h2, hmap, hnorow sid hmap]

/-- Witness for C10: `exBob` (who never joined) leaves `D1` while session 0
is tracked; nothing changes and nothing is emitted. -/
theorem leave_stream_no_open_row_noop_witness :
    handle_leave_stream exBob exS1 5 "D1" = (exS1, []) := by
  refine leave_stream_no_open_row_noop exBob exS1 5 "D1" (by rfl) (by decide) ?_
  intro sid hsid
  have h0 : dlookup exS1.active_sessions "D1" = some 0 := by rfl
  rw [h0] at hsid
  cases hsid
  rfl

end Streaming

namespace Streaming

/-! ### Projection and helper lemmas -/

@[simp] theorem setSession_listeners (db : DB) (s : Session) :
    (setSession db s).listeners = db.listeners := rfl

@[simp] theorem setSession_nextSessionId (db : DB) (s : Session) :
    (setSession db s).nextSessionId = db.nextSessionId := rfl

@[simp] theorem setSession_nextListenerId (db : DB) (s : Session) :
    (setSession db s).nextListenerId = db.nextListenerId := rfl

@[simp] theorem setListener_sessions (db : DB) (l : ListenerRow) :
    (setListener db l).sessions = db.sessions := rfl

@[simp] theorem setListener_nextSessionId (db : DB) (l : ListenerRow) :
    (setListener db l).nextSessionId = db.nextSessionId := rfl

@[simp] theorem setListener_nextListenerId (db : DB) (l : ListenerRow) :
    (setListener db l).nextListenerId = db.nextListenerId := rfl

@[simp] theorem finalizeSession_sid (s : Session) (o : Option StreamStat)
    (now : Nat) : (finalizeSession s o now).sid = s.sid := by
  cases o <;> rfl

@[simp] theorem finalizeSession_device_id (s : Session) (o : Option StreamStat)
    (now : Nat) : (finalizeSession s o now).device_id = s.device_id := by
  cases o <;> rfl

@[simp] theorem finalizeSession_start_time (s : Session) (o : Option StreamStat)
    (now : Nat) : (finalizeSession s o now).start_time = s.start_time := by
  cases o <;> rfl

@[simp] theorem finalizeSession_status (s : Session) (o : Option StreamStat)
    (now : Nat) : (finalizeSession s o now).status = Status.stopped := by
  cases o <;> rfl

@[simp] theorem finalizeSession_end_time (s : Session) (o : Option StreamStat)
    (now : Nat) : (finalizeSession s o now).end_time = some now := by
  cases o <;> rfl

@[simp] theorem finalizeSession_listener_count (s : Session)
    (o : Option StreamStat) (now : Nat) :
    (finalizeSession s o now).listener_count = s.listener_count := by
  cases o <;> rfl

@[simp] theorem finalizeSession_duration (s : Session) (o : Option StreamStat)
    (now : Nat) :
    (finalizeSession s o now).duration_seconds = (now : Int) - (s.start_time : Int) := by
  cases o <;> rfl

theorem finalizeSession_none_bytes (s : Session) (now : Nat) :
    (finalizeSession s none now).bytes_transferred = s.bytes_transferred := rfl

theorem finalizeSession_some_bytes (s : Session) (a : StreamStat) (now : Nat) :
    (finalizeSession s (some a) now).bytes_transferred = a.bytes := rfl

/-- Closing an already-processed row again changes nothing. -/
theorem closeRow_idem (sid now : Nat) (l : ListenerRow) :
    closeRow sid now (closeRow sid now l) = closeRow sid now l := by
  by_cases h : (l.session_id == sid && l.left_at == none) = true
  · simp [closeRow, h]
  · simp [closeRow, h]

/-- Unfolded form of a successful `stop_stream_session`. -/
theorem stop_eq {st : SysState} {now sid : Nat} {r : String} {session : Session}
    (hs : getSession st.db sid = some session) :
    stop_stream_session st now sid r = { st with
      db := {
        sessions := (setSession st.db
          (finalizeSession session (dlookup st.stream_stats session.device_id) now)).sessions
        listeners := st.db.listeners.map (closeRow sid now)
        nextSessionId := st.db.nextSessionId
        nextListenerId := st.db.nextListenerId }
      active_sessions := derase st.active_sessions session.device_id
      listener_counts := derase st.listener_counts session.device_id
      redis_subscribers := st.redis_subscribers.filter (fun d => d != session.device_id)
      stream_stats := derase st.stream_stats session.device_id } := by
  simp only [stop_stream_session, hs, setSession_listeners,
    setSession_nextSessionId, setSession_nextListenerId]

/-- Replacing by the same row twice is the same as once. -/
theorem replace_map_idem (l : List Session) (s : Session) :
    ((l.map (fun t => if t.sid == s.sid then s else t)).map
      (fun t => if t.sid == s.sid then s else t)) =
      l.map (fun t => if t.sid == s.sid then s else t) := by
  refine map_eq_self_of_fix (fun x hx => ?_)
  rcases List.mem_map.mp hx with ⟨u, _, rfl⟩
  by_cases h : u.sid = s.sid
  · simp [h]
  · simp [h]

/-- Closing all open rows of a session twice is the same as once. -/
theorem close_map_idem (l : List ListenerRow) (sid now : Nat) :
    (l.map (closeRow sid now)).map (closeRow sid now) = l.map (closeRow sid now) := by
  refine map_eq_self_of_fix (fun x hx => ?_)
  rcases List.mem_map.mp hx with ⟨u, _, rfl⟩
  exact closeRow_idem sid now u

end Streaming

namespace Streaming

/-! ### C2: teardown idempotence -/

theorem filter_idem {α : Type} (l : List α) (p : α → Bool) :
    (l.filter p).filter p = l.filter p := by
  rw [List.filter_filter]
  simp

/-- C2 (amended): a second `stop_stream_session` on the same session id *at
the same wall-clock second* changes nothing at all: no session field, no
listener row, and no process-local map.  The restriction to the same
wall-clock time is forced by the counterexample below: the handler never
checks for a terminal status and unconditionally rewrites `end_time` and
`duration_seconds` from the current clock. -/
theorem stop_stream_session_idempotent_same_time (st : SysState) (now : Nat)
    (sid : Nat) (r1 r2 : String) :
    stop_stream_session (stop_stream_session st now sid r1) now sid r2 =
      stop_stream_session st now sid r1 := by
  cases hs : getSession st.db sid with
  | none =>
    have h1 : stop_stream_session st now sid r1 = st := by
      simp only [stop_stream_session, hs]
    rw [h1]
    simp only [stop_stream_session, hs]
  | some session =>
    have hsid : session.sid = sid := (getSession_mem hs).2
    have hfsid : (finalizeSession session
        (dlookup st.stream_stats session.device_id) now).sid = sid := by
      simp [hsid]
    have hkey : getSession (stop_stream_session st now sid r1).db sid =
        some (finalizeSession session
          (dlookup st.stream_stats session.device_id) now) := by
      rw [stop_eq hs]
      show getSession (setSession st.db _) sid = _
      rw [← hfsid]
      exact getSession_set_self (by rw [hfsid]; exact hs)
    rw [stop_eq hkey, stop_eq hs]
    have hdev : (finalizeSession session
        (dlookup st.stream_stats session.device_id) now).device_id =
        session.device_id := by simp
    rw [hdev]
    have hstats : dlookup (derase st.stream_stats session.device_id)
        session.device_id = none := dlookup_derase_self _ _
    rw [hstats]
    have hrefin : finalizeSession (finalizeSession session
        (dlookup st.stream_stats session.device_id) now) none now =
        finalizeSession session (dlookup st.stream_stats session.device_id) now := by
      cases dlookup st.stream_stats session.device_id <;> rfl
    rw [hrefin]
    simp only [setSession, SysState.mk.injEq, DB.mk.injEq]
    exact ⟨⟨replace_map_idem _ _, close_map_idem _ _ _, trivial, trivial⟩,
      derase_idem _ _, trivial, derase_idem _ _, filter_idem _ _, derase_idem _ _⟩

end Streaming

namespace Streaming

/-- Counterexample to C2 as stated: on the session created by `exAlice`'s
request, tearing down at `t = 10` and again at `t = 20` is *not* a no-op —
the second call rewrites `end_time` (10 → 20) and `duration_seconds`,
because `stop_stream_session` never checks for a terminal status. -/
theorem stop_stream_session_not_idempotent :
    stop_stream_session (stop_stream_session exS1 10 0 "manual") 20 0 "other" ≠
      stop_stream_session exS1 10 0 "manual" ∧
    (getSession (stop_stream_session exS1 10 0 "manual").db 0).map
      Session.end_time = some (some 10) ∧
    (getSession (stop_stream_session
      (stop_stream_session exS1 10 0 "manual") 20 0 "other").db 0).map
      Session.end_time = some (some 20) := by
  refine ⟨?_, by decide, by decide⟩
  decide

end Streaming

namespace Streaming

/-! ### Chunk ingestion lemmas (C9, C3) -/

/-- Unfolded form of an accepted `audio_chunk`: only `stream_stats` changes,
the accumulator gaining `len(chunk) * 3 // 4` bytes and one chunk. -/
theorem chunk_eq {devices : List DeviceRec} {st : SysState} {now : Nat}
    {aid chunk : String} {device : DeviceRec}
    (haid : aid ≠ "") (hchunk : chunk ≠ "")
    (hdev : findByAndroidId devices aid = some device)
    (hactive : dmem st.active_sessions device.device_id = true) :
    handle_audio_chunk devices st now aid chunk = { st with
      stream_stats :=
        dinsert st.stream_stats device.device_id
          { bytes := ((dlookup st.stream_stats device.device_id).getD
              { bytes := 0, chunks := 0, last_flush := now }).bytes +
              chunk.length * 3 / 4
            chunks := ((dlookup st.stream_stats device.device_id).getD
              { bytes := 0, chunks := 0, last_flush := now }).chunks + 1
            last_flush := ((dlookup st.stream_stats device.device_id).getD
              { bytes := 0, chunks := 0, last_flush := now }).last_flush } } := by
  have h1 : (aid == "") = false := by simp [haid]
  have h2 : (chunk == "") = false := by simp [hchunk]
  simp only [handle_audio_chunk, h1, h2, Bool.or_self, Bool.false_or,
    Bool.or_false, if_false, hdev, hactive, if_true]
  simp

/-- A chunk for a device with no `active_sessions` entry changes nothing. -/
theorem chunk_noop {devices : List DeviceRec} {st : SysState} {now : Nat}
    {aid chunk : String} {device : DeviceRec}
    (hdev : findByAndroidId devices aid = some device)
    (hactive : dmem st.active_sessions device.device_id = false) :
    handle_audio_chunk devices st now aid chunk = st := by
  by_cases h1 : aid = ""
  · simp [handle_audio_chunk, h1]
  · by_cases h2 : chunk = ""
    · simp [handle_audio_chunk, h1, h2]
    · have h1' : (aid == "") = false := by simp [h1]
      have h2' : (chunk == "") = false := by simp [h2]
      simp only [handle_audio_chunk, h1', h2', Bool.or_self, Bool.false_or,
        Bool.or_false, if_false, hdev, hactive]
      simp

end Streaming

namespace Streaming

/-! ### C9: teardown removes the index entry before the final stats read -/

/-- C9: because `stop_stream_session` deletes the device's `active_sessions`
entry and reads the final accumulator inside one atomic step (no suspension
point between `streaming.py:699` and `:704`), a chunk racing the teardown is
counted exactly once: a chunk delivered before the teardown step is included
in the final `bytes_transferred` once, and a chunk delivered after the
teardown step leaves the state — stats included — completely unchanged. -/
theorem teardown_chunk_counted_at_most_once
    (devices : List DeviceRec) (st : SysState) (now1 now2 : Nat) (sid : Nat)
    (session : Session) (device : DeviceRec) (aid chunk r : String)
    (stat : StreamStat)
    (hs : getSession st.db sid = some session)
    (hdev : findByAndroidId devices aid = some device)
    (hmatch : device.device_id = session.device_id)
    (haid : aid ≠ "") (hchunk : chunk ≠ "")
    (hactive : dmem st.active_sessions session.device_id = true)
    (hstat : dlookup st.stream_stats session.device_id = some stat) :
    ((getSession (stop_stream_session
        (handle_audio_chunk devices st now1 aid chunk) now2 sid r).db sid).map
      Session.bytes_transferred = some (stat.bytes + chunk.length * 3 / 4)) ∧
    handle_audio_chunk devices (stop_stream_session st now2 sid r) now1 aid chunk =
      stop_stream_session st now2 sid r := by
  constructor
  · -- chunk first, then teardown: the chunk's bytes appear exactly once
    have hc := @chunk_eq devices st now1 _ _ _ haid hchunk hdev
      (by rw [hmatch]; exact hactive)
    rw [hc]
    set st1 : SysState := { st with
      stream_stats := dinsert st.stream_stats device.device_id
        { bytes := ((dlookup st.stream_stats device.device_id).getD
            { bytes := 0, chunks := 0, last_flush := now1 }).bytes +
            chunk.length * 3 / 4
          chunks := ((dlookup st.stream_stats device.device_id).getD
            { bytes := 0, chunks := 0, last_flush := now1 }).chunks + 1
          last_flush := ((dlookup st.stream_stats device.device_id).getD
            { bytes := 0, chunks := 0, last_flush := now1 }).last_flush } } with hst1
    have hs1 : getSession st1.db sid = some session := hs
    have hlk : dlookup st1.stream_stats session.device_id =
        some { bytes := stat.bytes + chunk.length * 3 / 4
               chunks := stat.chunks + 1
               last_flush := stat.last_flush } := by
      rw [hst1]
      show dlookup (dinsert _ _ _) _ = _
      rw [← hmatch, dlookup_dinsert_self]
      rw [hmatch, hstat]
      rfl
    rw [stop_eq hs1, hlk]
    have hfsid : (finalizeSession session
        (some { bytes := stat.bytes + chunk.length * 3 / 4
                chunks := stat.chunks + 1
                last_flush := stat.last_flush }) now2).sid = sid := by
      simp [(getSession_mem hs).2]
    show (getSession (setSession st1.db _) sid).map Session.bytes_transferred = _
    rw [← hfsid]
    rw [getSession_set_self (by rw [hfsid]; exact hs1)]
    simp [finalizeSession]
  · -- teardown first: the late chunk is dropped, state unchanged
    refine chunk_noop hdev ?_
    rw [stop_eq hs]
    show dmem (derase st.active_sessions session.device_id) device.device_id = false
    rw [hmatch]
    simp [dmem, dlookup_derase_self]

end Streaming

namespace Streaming

/-- Witness for C9 on a concrete run: with 3 bytes already accumulated, a
racing chunk of text length 8 (6 bytes) is reflected exactly once (final
`bytes_transferred` = 9) when it lands before the teardown, and dropped with
no state change when it lands after. -/
theorem teardown_chunk_counted_at_most_once_witness :
    ((getSession (stop_stream_session
        (handle_audio_chunk exDevices exC1 6 "A1" "abcdefgh") 30 0 "manual").db 0).map
      Session.bytes_transferred = some 9) ∧
    handle_audio_chunk exDevices (stop_stream_session exC1 30 0 "manual") 6 "A1"
      "abcdefgh" = stop_stream_session exC1 30 0 "manual" := by
  have h := teardown_chunk_counted_at_most_once exDevices exC1 6 30 0
    exSession0 { device_id := "D1", android_id := "A1" } "A1" "abcdefgh" "manual"
    { bytes := 3, chunks := 1, last_flush := 5 }
    (by decide) (by decide) (by decide) (by decide) (by decide)
    (by decide) (by decide)
  simpa using h

end Streaming

namespace Streaming

/-! ### C3: final bytes_transferred equals the sum of chunk byte sizes -/

/-- Looking up a session after a teardown yields the finalized row. -/
theorem getSession_stop {st : SysState} {now sid : Nat} {r : String}
    {session : Session} (hs : getSession st.db sid = some session) :
    getSession (stop_stream_session st now sid r).db sid =
      some (finalizeSession session
        (dlookup st.stream_stats session.device_id) now) := by
  have hfsid : (finalizeSession session
      (dlookup st.stream_stats session.device_id) now).sid = sid := by
    simp [(getSession_mem hs).2]
  rw [stop_eq hs]
  show getSession (setSession st.db _) sid = _
  rw [← hfsid]
  exact getSession_set_self (by rw [hfsid]; exact hs)

/-- Folding a list of accepted chunks leaves the database and the session
index unchanged and adds exactly `Σ floor(len·3/4)` to the device's byte
accumulator. -/
theorem chunk_fold_frame (devices : List DeviceRec) (aid : String)
    (device : DeviceRec) (now : Nat) (cs : List String) (st : SysState)
    (haid : aid ≠ "") (hdev : findByAndroidId devices aid = some device)
    (hcs : ∀ c ∈ cs, c ≠ "")
    (hactive : dmem st.active_sessions device.device_id = true) :
    (cs.foldl (fun s c => handle_audio_chunk devices s now aid c) st).db = st.db ∧
    (cs.foldl (fun s c => handle_audio_chunk devices s now aid c) st).active_sessions
      = st.active_sessions ∧
    ((dlookup (cs.foldl (fun s c => handle_audio_chunk devices s now aid c)
        st).stream_stats device.device_id).map StreamStat.bytes).getD 0 =
      ((dlookup st.stream_stats device.device_id).map StreamStat.bytes).getD 0 +
        (cs.map (fun c => c.length * 3 / 4)).sum := by
  induction cs generalizing st with
  | nil => simp
  | cons c rest ih =>
    have hc : c ≠ "" := hcs c (List.mem_cons_self c rest)
    have hrest : ∀ x ∈ rest, x ≠ "" := fun x hx => hcs x (List.mem_cons_of_mem c hx)
    have hstep := @chunk_eq devices st now _ _ _ haid hc hdev hactive
    have hfold : (c :: rest).foldl (fun s x => handle_audio_chunk devices s now aid x) st
        = rest.foldl (fun s x => handle_audio_chunk devices s now aid x)
          (handle_audio_chunk devices st now aid c) := rfl
    rw [hfold, hstep]
    have hactive1 : dmem ({ st with
        stream_stats := dinsert st.stream_stats device.device_id
          { bytes := ((dlookup st.stream_stats device.device_id).getD
              { bytes := 0, chunks := 0, last_flush := now }).bytes +
              c.length * 3 / 4
            chunks := ((dlookup st.stream_stats device.device_id).getD
              { bytes := 0, chunks := 0, last_flush := now }).chunks + 1
            last_flush := ((dlookup st.stream_stats device.device_id).getD
              { bytes := 0, chunks := 0, last_flush := now }).last_flush } } :
        SysState).active_sessions device.device_id = true := hactive
    rcases ih _ hrest hactive1 with ⟨hdb, hact, hbytes⟩
    refine ⟨hdb, hact, ?_⟩
    rw [hbytes]
    show (((dlookup (dinsert st.stream_stats device.device_id _)
      device.device_id).map StreamStat.bytes).getD 0) + _ = _
    rw [dlookup_dinsert_self]
    cases hlk : dlookup st.stream_stats device.device_id with
    | none => simp [hlk, List.map_cons, List.sum_cons, Nat.add_assoc]
    | some a => simp [hlk, List.map_cons, List.sum_cons, Nat.add_assoc]

/-- C3: starting from a tracked session with an empty accumulator and zero
bytes recorded, ingesting base64 chunk texts `cs` while the session is
tracked and then tearing down records exactly `Σ floor(len(c)·3/4)` as the
final `bytes_transferred` — each accepted chunk counted exactly once
(`streaming.py:486-500` and `:696-706`). -/
theorem final_bytes_transferred_eq_sum
    (devices : List DeviceRec) (st : SysState) (now1 now2 : Nat) (sid : Nat)
    (session : Session) (device : DeviceRec) (aid r : String) (cs : List String)
    (hs : getSession st.db sid = some session)
    (hdev : findByAndroidId devices aid = some device)
    (hmatch : device.device_id = session.device_id)
    (haid : aid ≠ "") (hcs : ∀ c ∈ cs, c ≠ "")
    (hactive : dmem st.active_sessions session.device_id = true)
    (hstats0 : dlookup st.stream_stats session.device_id = none)
    (hbytes0 : session.bytes_transferred = 0) :
    (getSession (stop_stream_session
        (cs.foldl (fun s c => handle_audio_chunk devices s now1 aid c) st)
        now2 sid r).db sid).map Session.bytes_transferred =
      some ((cs.map (fun c => c.length * 3 / 4)).sum) := by
  rcases chunk_fold_frame devices aid device now1 cs st haid hdev hcs
    (by rw [hmatch]; exact hactive) with ⟨hdb, -, hbytes⟩
  have hs' : getSession (cs.foldl
      (fun s c => handle_audio_chunk devices s now1 aid c) st).db sid =
      some session := by rw [hdb]; exact hs
  rw [getSession_stop hs']
  rw [hmatch] at hbytes
  rw [hstats0] at hbytes
  simp at hbytes
  cases hlk : dlookup (cs.foldl
      (fun s c => handle_audio_chunk devices s now1 aid c) st).stream_stats
      session.device_id with
  | none =>
    rw [hlk] at hbytes
    simp at hbytes
    simp [← hbytes, finalizeSession_none_bytes, hbytes0]
  | some a =>
    rw [hlk] at hbytes
    simp at hbytes
    simp [finalizeSession_some_bytes, hbytes]

end Streaming

namespace Streaming

/-- Witness for C3: chunks of text lengths 5 and 8 on the fresh session 0
yield final `bytes_transferred` = ⌊5·3/4⌋ + ⌊8·3/4⌋ = 3 + 6 = 9. -/
theorem final_bytes_transferred_eq_sum_witness :
    (getSession (stop_stream_session
        ((["abcde", "abcdefgh"] : List String).foldl
          (fun s c => handle_audio_chunk exDevices s 5 "A1" c) exS1)
        30 0 "manual").db 0).map Session.bytes_transferred = some 9 := by
  have h := final_bytes_transferred_eq_sum exDevices exS1 5 30 0 exSession0
    { device_id := "D1", android_id := "A1" } "A1" "manual" ["abcde", "abcdefgh"]
    (by decide) (by decide) (by decide) (by decide) (by decide)
    (by decide) (by decide) (by decide)
  simpa using h

end Streaming

namespace Streaming

/-! ### C7: successful `stream_ready` -/

/-- C7: a valid `stream_ready` from the session's own device (direct match,
Redis up) flips the session to `active`, emits exactly one `stream_started`
to the room `listeners_{device_id}` carrying the session's current
`listener_count`, and starts exactly one subscriber: one is appended when
the device has none, and nothing is added when one is already tracked
(`streaming.py:420-438`). -/
theorem stream_ready_activates
    (devices : List DeviceRec) (st : SysState) (aid sid_str : String)
    (device : DeviceRec) (sid : Nat) (session : Session)
    (haid : aid ≠ "") (hsidstr : sid_str ≠ "")
    (hdev : findByAndroidId devices aid = some device)
    (hparse : parse_int sid_str = some sid)
    (hsess : getSession st.db sid = some session)
    (_hreq : session.status = Status.requested)
    (hmatch : session.device_id = device.device_id) :
    (getSession (handle_stream_ready devices true st aid sid_str).fst.db sid).map
      Session.status = some Status.active ∧
    (handle_stream_ready devices true st aid sid_str).snd =
      [Event.stream_started sid device.device_id session.listener_count] ∧
    (device.device_id ∈ st.redis_subscribers →
      (handle_stream_ready devices true st aid sid_str).fst.redis_subscribers =
        st.redis_subscribers) ∧
    (device.device_id ∉ st.redis_subscribers →
      (handle_stream_ready devices true st aid sid_str).fst.redis_subscribers =
        st.redis_subscribers ++ [device.device_id]) := by
  have h1 : (aid == "") = false := by simp [haid]
  have h2 : (sid_str == "") = false := by simp [hsidstr]
  have hm : ((session.device_id == device.device_id) ||
      (match get_android_id_for_device devices device.device_id with
       | some a => session.device_id == a
       | none => false)) = true := by simp [hmatch]
  have hsid : session.sid = sid := (getSession_mem hsess).2
  have hgets : getSession (setSession st.db
      { session with status := Status.active }) sid =
      some { session with status := Status.active } := by
    have : ({ session with status := Status.active } : Session).sid = sid := by
      simpa using hsid
    rw [← this]
    exact getSession_set_self (by rw [this]; exact hsess)
  by_cases hsub : device.device_id ∈ st.redis_subscribers
  · have hc : st.redis_subscribers.contains device.device_id = true :=
      List.elem_eq_true_of_mem hsub
    refine ⟨?_, ?_, fun _ => ?_, fun hn => absurd hsub hn⟩ <;>
      simp [handle_stream_ready, h1, h2, hdev, hparse, hsess, hm, hc, hgets, hsub]
  · have hc : st.redis_subscribers.contains device.device_id = false := by
      simpa using hsub
    refine ⟨?_, ?_, fun hy => absurd hy hsub, fun _ => ?_⟩ <;>
      simp [handle_stream_ready, h1, h2, hdev, hparse, hsess, hm, hc, hgets,
        start_redis_subscriber, hsub]

end Streaming

namespace Streaming

/-- Witness for C7: the device confirms session 0 of `exS1`; the session
becomes `active`, the room gets `stream_started` with listener_count 1, and
exactly one subscriber for `D1` is started. -/
theorem stream_ready_activates_witness :
    (getSession (handle_stream_ready exDevices true exS1 "A1" "0").fst.db 0).map
      Session.status = some Status.active ∧
    (handle_stream_ready exDevices true exS1 "A1" "0").snd =
      [Event.stream_started 0 "D1" 1] ∧
    (handle_stream_ready exDevices true exS1 "A1" "0").fst.redis_subscribers =
      ["D1"] := by
  have h := stream_ready_activates exDevices exS1 "A1" "0"
    { device_id := "D1", android_id := "A1" } 0 exSession0
    (by decide) (by decide) (by decide) (by decide) (by decide) (by decide)
    (by decide)
  rcases h with ⟨ha, hb, -, hd⟩
  exact ⟨ha, by simpa using hb, by simpa using hd (by decide)⟩

end Streaming

namespace Streaming

/-! ### C4: fresh vs stale `requested` session on a new request -/

/-- On a tracked `requested` session, `handle_stream_request` reduces to the
lazy timeout test: tear down and recreate when the request is older than
120 s, otherwise join the pending session (`streaming.py:206-243`). -/
theorem request_tracked_requested_eq
    (devices : List DeviceRec) (resolve : String → String) (user : UserCtx)
    (st : SysState) (now : Nat) (p dev : String) (sid : Nat) (session : Session)
    (hauth : user.is_authenticated = true) (hp : p ≠ "")
    (hres : resolve p = dev)
    (hdev : (devices.find? (fun d => d.device_id == dev)).isSome)
    (hacc : user.can_access_device dev = true)
    (hmap : dlookup st.active_sessions dev = some sid)
    (hsess : getSession st.db sid = some session)
    (hreq : session.status = Status.requested) :
    handle_stream_request devices resolve user st now p =
      (if (now : Int) - (session.start_time : Int) > 120 then
        create_new_session user
          { stop_stream_session st now sid "timeout" with
            active_sessions :=
              derase (stop_stream_session st now sid "timeout").active_sessions dev
            listener_counts :=
              derase (stop_stream_session st now sid "timeout").listener_counts dev }
          now dev
      else join_pending user st now dev sid session) := by
  obtain ⟨d, hd⟩ := Option.isSome_iff_exists.mp hdev
  have h1 : (!user.is_authenticated) = false := by simp [hauth]
  have h2 : (p == "") = false := by simp [hp]
  have h3 : (!user.can_access_device (resolve p)) = false := by simp [hres, hacc]
  simp only [handle_stream_request, h1, Bool.false_eq_true, if_false, h2, hres,
    hd, h3, hmap, hsess, hreq]
  simp [hacc]

end Streaming

namespace Streaming

/-- C4: with a tracked `requested` session for the device, a later
authenticated request joins it when the session is younger than (or exactly)
120 s — a listener row is created, `listener_count` is incremented, no new
session id is allocated, and the caller is told to wait — and when it is
older than 120 s the session is torn down (status `stopped`) and a fresh
`requested` session under a brand-new id replaces it in the index.  This
test runs only inside `handle_stream_request`; no other code path inspects
session age (`streaming.py:206-243`). -/
theorem request_joins_fresh_or_replaces_stale
    (devices : List DeviceRec) (resolve : String → String) (user : UserCtx)
    (st : SysState) (now : Nat) (p dev : String) (sid : Nat) (session : Session)
    (hauth : user.is_authenticated = true) (hp : p ≠ "")
    (hres : resolve p = dev)
    (hdev : (devices.find? (fun d => d.device_id == dev)).isSome)
    (hacc : user.can_access_device dev = true)
    (hmap : dlookup st.active_sessions dev = some sid)
    (hsess : getSession st.db sid = some session)
    (hreq : session.status = Status.requested)
    (hfresh : ∀ s ∈ st.db.sessions, s.sid < st.db.nextSessionId) :
    ((now : Int) - (session.start_time : Int) ≤ 120 →
      (handle_stream_request devices resolve user st now p).fst.db.nextSessionId =
        st.db.nextSessionId ∧
      getSession (handle_stream_request devices resolve user st now p).fst.db sid =
        some { session with listener_count := session.listener_count + 1 } ∧
      (handle_stream_request devices resolve user st now p).fst.db.listeners =
        st.db.listeners ++
          [ListenerRow.mk st.db.nextListenerId sid user.uid user.username now none 0] ∧
      (handle_stream_request devices resolve user st now p).snd =
        [Event.stream_requested sid dev]) ∧
    ((now : Int) - (session.start_time : Int) > 120 →
      (getSession (handle_stream_request devices resolve user st now p).fst.db sid).map
        Session.status = some Status.stopped ∧
      getSession (handle_stream_request devices resolve user st now p).fst.db
        st.db.nextSessionId =
        some (Session.mk st.db.nextSessionId dev user.uid now none
          Status.requested 0 0 1) ∧
      st.db.nextSessionId ≠ sid ∧
      dlookup (handle_stream_request devices resolve user st now p).fst.active_sessions
        dev = some st.db.nextSessionId ∧
      (handle_stream_request devices resolve user st now p).snd =
        [Event.stream_requested st.db.nextSessionId dev]) := by
  have heq := request_tracked_requested_eq devices resolve user st now p dev sid
    session hauth hp hres hdev hacc hmap hsess hreq
  have hsid : session.sid = sid := (getSession_mem hsess).2
  constructor
  · intro hyoung
    have hcond : ¬ ((120 : Int) < (now : Int) - (session.start_time : Int)) :=
      not_lt.mpr hyoung
    rw [heq, if_neg hcond]
    refine ⟨rfl, ?_, rfl, rfl⟩
    have hmemsid : ({ session with listener_count := session.listener_count + 1 } :
        Session).sid = sid := by simpa using hsid
    show getSession (setSession _
      { session with listener_count := session.listener_count + 1 }) sid = _
    rw [← hmemsid]
    exact @getSession_set_self _ _ session (by rw [hmemsid]; exact hsess)
  · intro hstale
    have hcond : (120 : Int) < (now : Int) - (session.start_time : Int) := hstale
    rw [heq, if_pos hcond]
    have hsidlt : sid < st.db.nextSessionId := by
      have := hfresh session (getSession_mem hsess).1
      rw [hsid] at this
      exact this
    have hne : st.db.nextSessionId ≠ sid := Nat.ne_of_gt hsidlt
    -- the state passed to create_new_session
    have hstopdb : (stop_stream_session st now sid "timeout").db.nextSessionId =
        st.db.nextSessionId := by rw [stop_eq hsess]
    set stC : SysState :=
      { stop_stream_session st now sid "timeout" with
        active_sessions :=
          derase (stop_stream_session st now sid "timeout").active_sessions dev
        listener_counts :=
          derase (stop_stream_session st now sid "timeout").listener_counts dev }
      with hstC
    have hCdb : stC.db = (stop_stream_session st now sid "timeout").db := rfl
    have hCnext : stC.db.nextSessionId = st.db.nextSessionId := by
      rw [hCdb, hstopdb]
    have hCsessions : stC.db.sessions = st.db.sessions.map
        (fun t => if t.sid == (finalizeSession session
          (dlookup st.stream_stats session.device_id) now).sid
        then finalizeSession session (dlookup st.stream_stats session.device_id) now
        else t) := by
      rw [hCdb, stop_eq hsess]
      rfl
    have hnew : (create_new_session user stC now dev).fst.db.sessions =
        stC.db.sessions ++ [Session.mk stC.db.nextSessionId dev user.uid now none
          Status.requested 0 0 1] := rfl
    have hfirst : stC.db.sessions.find? (fun t => t.sid == sid) =
        some (finalizeSession session
          (dlookup st.stream_stats session.device_id) now) := by
      rw [hCsessions]
      have hfs : (finalizeSession session
          (dlookup st.stream_stats session.device_id) now).sid = sid := by
        simpa using hsid
      rw [← hfs]
      refine find?_replace_self st.db.sessions _ ?_
      rw [hfs]
      rw [getSession] at hsess
      simp [hsess]
    refine ⟨?_, ?_, hne, ?_, ?_⟩
    · -- the old session is stopped in the new table
      have : getSession (create_new_session user stC now dev).fst.db sid =
          some (finalizeSession session
            (dlookup st.stream_stats session.device_id) now) := by
        rw [getSession, hnew, List.find?_append, hfirst]
        rfl
      rw [this]
      simp
    · -- the fresh session sits under the new id
      have hnone : stC.db.sessions.find?
          (fun t => t.sid == st.db.nextSessionId) = none := by
        rw [List.find?_eq_none]
        intro x hx
        rw [hCsessions] at hx
        rcases List.mem_map.mp hx with ⟨u, hu, rfl⟩
        have hlt : u.sid < st.db.nextSessionId := hfresh u hu
        by_cases hcase : u.sid = session.sid
        · rw [if_pos (by simp [hcase])]
          simp only [finalizeSession_sid, beq_iff_eq]
          exact Nat.ne_of_lt (hfresh session (getSession_mem hsess).1)
        · rw [if_neg (by simp [hcase])]
          simp only [beq_iff_eq]
          exact Nat.ne_of_lt hlt
      have : getSession (create_new_session user stC now dev).fst.db
          st.db.nextSessionId = some (Session.mk st.db.nextSessionId dev user.uid
            now none Status.requested 0 0 1) := by
        rw [getSession, hnew, List.find?_append, hnone, hCnext]
        simp [List.find?_cons]
      exact this
    · -- the index maps the device to the new id
      have : (create_new_session user stC now dev).fst.active_sessions =
          dinsert stC.active_sessions dev stC.db.nextSessionId := rfl
      rw [this, hCnext, dlookup_dinsert_self]
    · have hev : (create_new_session user stC now dev).snd =
          [Event.stream_requested stC.db.nextSessionId dev] := rfl
      rw [hev, hCnext]

end Streaming

namespace Streaming

/-- Witness for C4 on the concrete run: at `t = 100` `exBob` joins the
pending session 0 (no new session id); at `t = 121` session 0 is stopped
and the index points at the brand-new session 1. -/
theorem request_joins_fresh_or_replaces_stale_witness :
    ((handle_stream_request exDevices exResolve exBob exS1 100 "D1").fst.db.nextSessionId
        = 1 ∧
      (handle_stream_request exDevices exResolve exBob exS1 100 "D1").snd =
        [Event.stream_requested 0 "D1"]) ∧
    ((getSession (handle_stream_request exDevices exResolve exBob exS1 121
        "D1").fst.db 0).map Session.status = some Status.stopped ∧
      dlookup (handle_stream_request exDevices exResolve exBob exS1 121
        "D1").fst.active_sessions "D1" = some 1) := by
  have h1 := request_joins_fresh_or_replaces_stale exDevices exResolve exBob
    exS1 100 "D1" "D1" 0 exSession0 (by rfl) (by decide) (by rfl) (by decide)
    (by rfl) (by decide) (by decide) (by decide) (by decide)
  have h2 := request_joins_fresh_or_replaces_stale exDevices exResolve exBob
    exS1 121 "D1" "D1" 0 exSession0 (by rfl) (by decide) (by rfl) (by decide)
    (by rfl) (by decide) (by decide) (by decide) (by decide)
  obtain ⟨hy, -⟩ := h1
  obtain ⟨-, hs⟩ := h2
  obtain ⟨ha, -, -, hd⟩ := hy (by decide)
  obtain ⟨he, -, -, hf, -⟩ := hs (by decide)
  exact ⟨⟨by simpa using ha, by simpa using hd⟩, by simpa using he,
    by simpa using hf⟩

end Streaming

namespace Streaming

/-! ### Counterexamples for the global invariants (C1, C5, C8)

The trace behind `exS1`-`exS4` is a real composition of handler calls:
request (t=0), request (t=121, lazy timeout), a late `stream_ready` for the
already-stopped session 0 — `handle_stream_ready` checks only the device
match and never the status (`streaming.py:395-421`) — then a leave. -/

/-- Counterexample to C1 as stated: after the late `stream_ready` revives
stopped session 0 while session 1 is `requested`, device `D1` has two
sessions with status in {requested, active} at once. -/
theorem two_live_sessions_after_late_ready :
    ¬ (∀ dev, liveSessionCount exS3.db dev ≤ 1) := by
  intro h
  exact absurd (h "D1") (by decide)

/-- Counterexample to C5 as stated: session 0 of `exS2` saw one join and no
leave, and indeed keeps `listener_count = 1`, but the lazy-timeout teardown
closed its only listener row without resetting the count, so the count no
longer equals the number of rows with `left_at = null` (which is 0). -/
theorem stopped_session_count_rows_mismatch :
    (getSession exS2.db 0).map Session.listener_count = some 1 ∧
    openRows exS2.db 0 = 0 := by decide

/-- Counterexample to C8 as stated: in `exS4` session 0 of device `D1` is
`active`, yet no subscriber task exists (the teardown of session 1 removed
`D1`'s subscriber while revived session 0 stayed active). -/
theorem active_session_without_subscriber :
    (getSession exS4.db 0).map Session.status = some Status.active ∧
    exS4.redis_subscribers = [] := by decide

end Streaming

namespace Streaming

/-! ### Support lemmas for the inductive invariant -/

@[simp] theorem closeRow_rid (sid now : Nat) (l : ListenerRow) :
    (closeRow sid now l).rid = l.rid := by
  by_cases h : (l.session_id == sid && l.left_at == none) = true <;>
    simp [closeRow, h]

@[simp] theorem closeRow_session_id (sid now : Nat) (l : ListenerRow) :
    (closeRow sid now l).session_id = l.session_id := by
  by_cases h : (l.session_id == sid && l.left_at == none) = true <;>
    simp [closeRow, h]

@[simp] theorem closeRow_user_id (sid now : Nat) (l : ListenerRow) :
    (closeRow sid now l).user_id = l.user_id := by
  by_cases h : (l.session_id == sid && l.left_at == none) = true <;>
    simp [closeRow, h]

theorem getSession_set_isSome {db : DB} {s : Session} {q : Nat}
    (h : (getSession db q).isSome) :
    (getSession (setSession db s) q).isSome := by
  by_cases hq : q = s.sid
  · subst hq
    obtain ⟨t, ht⟩ := Option.isSome_iff_exists.mp h
    rw [getSession_set_self ht]
    rfl
  · rw [getSession_set_ne hq]
    exact h

/-- With unique primary keys, two session rows with the same id coincide. -/
theorem sessions_inj {db : DB} (hnd : (db.sessions.map Session.sid).Nodup)
    {s t : Session} (hs : s ∈ db.sessions) (ht : t ∈ db.sessions)
    (h : s.sid = t.sid) : s = t :=
  List.inj_on_of_nodup_map hnd hs ht h

/-- With unique primary keys, membership determines the lookup result. -/
theorem getSession_eq_of_mem {db : DB}
    (hnd : (db.sessions.map Session.sid).Nodup) {s : Session}
    (hs : s ∈ db.sessions) : getSession db s.sid = some s := by
  have hsome : (getSession db s.sid).isSome := getSession_isSome_of_mem hs
  obtain ⟨t, ht⟩ := Option.isSome_iff_exists.mp hsome
  obtain ⟨htmem, htsid⟩ := getSession_mem ht
  rw [ht]
  congr 1
  exact sessions_inj hnd htmem hs htsid

/-- Replacement writes keep the multiset of listener primary keys. -/
theorem close_map_rids (l : List ListenerRow) (sid now : Nat) :
    (l.map (closeRow sid now)).map ListenerRow.rid = l.map ListenerRow.rid := by
  rw [List.map_map]
  exact List.map_congr_left (fun u _ => by simp)

end Streaming

namespace Streaming

/-- Teardown preserves the process invariant, provided the device of the
stopping session is either untracked or tracked by exactly this session —
which holds at every call site. -/
theorem inv_stop (devices : List DeviceRec) (st : SysState) (now sid : Nat)
    (r : String) (hinv : Inv devices st)
    (hok : ∀ T, getSession st.db sid = some T →
      dlookup st.active_sessions T.device_id = none ∨
      dlookup st.active_sessions T.device_id = some sid) :
    Inv devices (stop_stream_session st now sid r) := by
  cases hs : getSession st.db sid with
  | none =>
    have : stop_stream_session st now sid r = st := by
      simp only [stop_stream_session, hs]
    rw [this]
    exact hinv
  | some T =>
    obtain ⟨hTmem, hTsid⟩ := getSession_mem hs
    rw [stop_eq hs]
    have hfsid : (finalizeSession T (dlookup st.stream_stats T.device_id) now).sid
        = sid := by simp [hTsid]
    have hsids : ((setSession st.db
        (finalizeSession T (dlookup st.stream_stats T.device_id) now)).sessions.map
        Session.sid) = st.db.sessions.map Session.sid := setSession_sids _ _
    have hmem' : ∀ s', s' ∈ (setSession st.db
        (finalizeSession T (dlookup st.stream_stats T.device_id) now)).sessions →
        s' = finalizeSession T (dlookup st.stream_stats T.device_id) now ∨
        (s' ∈ st.db.sessions ∧ s'.sid ≠ sid) := by
      intro s' hs'
      rcases setSession_mem hs' with h | ⟨h1, h2, -⟩
      · exact Or.inl h
      · right
        refine ⟨h1, ?_⟩
        rw [hfsid] at h2
        exact h2
    constructor
    case sid_fresh =>
      intro s hsm
      rcases hmem' s hsm with h | ⟨h1, -⟩
      · rw [h]
        simpa [hTsid] using hinv.sid_fresh T hTmem
      · exact hinv.sid_fresh s h1
    case sid_unique =>
      show ((setSession st.db _).sessions.map Session.sid).Nodup
      rw [hsids]
      exact hinv.sid_unique
    case rid_fresh =>
      intro l hl
      rcases List.mem_map.mp hl with ⟨u, hu, rfl⟩
      simpa using hinv.rid_fresh u hu
    case rid_unique =>
      show ((st.db.listeners.map (closeRow sid now)).map ListenerRow.rid).Nodup
      rw [close_map_rids]
      exact hinv.rid_unique
    case row_sid_fresh =>
      intro l hl
      rcases List.mem_map.mp hl with ⟨u, hu, rfl⟩
      simpa using hinv.row_sid_fresh u hu
    case mapped_exists =>
      intro dev' sid' hlk
      by_cases hdev' : dev' = T.device_id
      · rw [hdev'] at hlk
        rw [dlookup_derase_self] at hlk
        cases hlk
      · rw [dlookup_derase_ne _ _ _ hdev'] at hlk
        have := hinv.mapped_exists dev' sid' hlk
        exact getSession_set_isSome this
    case mapped_dev =>
      intro dev' sid' s hlk hget
      by_cases hdev' : dev' = T.device_id
      · rw [hdev', dlookup_derase_self] at hlk
        cases hlk
      · rw [dlookup_derase_ne _ _ _ hdev'] at hlk
        by_cases hsid' : sid' = sid
        · exfalso
          have hgetT : getSession st.db sid' = some T := by
            rw [hsid']
            exact hs
          have := hinv.mapped_dev dev' sid' T hlk hgetT
          exact hdev' this.symm
        · have hget' : getSession (setSession st.db
              (finalizeSession T (dlookup st.stream_stats T.device_id) now)) sid' =
              some s := hget
          rw [getSession_set_ne (by rw [hfsid]; exact hsid')] at hget'
          exact hinv.mapped_dev dev' sid' s hlk hget'
    case live_mapped =>
      intro s hsm hlive
      rcases hmem' s hsm with h | ⟨h1, h2⟩
      · exfalso
        rw [h] at hlive
        simp [nonTerminalB] at hlive
      · have hold := hinv.live_mapped s h1 hlive
        by_cases hdev' : s.device_id = T.device_id
        · exfalso
          rcases hok T hs with hnone | hsome
          · rw [hdev', hnone] at hold
            cases hold
          · rw [hdev', hsome] at hold
            cases hold
            exact h2 rfl
        · rw [dlookup_derase_ne _ _ _ hdev']
          exact hold
    case open_row_live =>
      intro l hl hopen s hget
      rcases List.mem_map.mp hl with ⟨u, hu, rfl⟩
      by_cases hcond : (u.session_id == sid && u.left_at == none) = true
      · exfalso
        simp only [closeRow, if_pos hcond] at hopen
        simp at hopen
      · simp only [closeRow, if_neg hcond] at hopen hget ⊢
        have husid : u.session_id ≠ sid := by
          intro hx
          rw [hopen] at hcond
          simp [hx] at hcond
        have hget' : getSession (setSession st.db
            (finalizeSession T (dlookup st.stream_stats T.device_id) now))
            u.session_id = some s := hget
        rw [getSession_set_ne (by rw [hfsid]; exact husid)] at hget'
        exact hinv.open_row_live u hu hopen s hget'
    case count_rows =>
      intro s hsm hlive
      rcases hmem' s hsm with h | ⟨h1, h2⟩
      · exfalso
        rw [h] at hlive
        simp [nonTerminalB] at hlive
      · have hold := hinv.count_rows s h1 hlive
        rw [hold]
        congr 1
        rw [openRows, openRows]
        exact (length_filter_map_congr (fun x hx => by
          by_cases hc : (x.session_id == sid && x.left_at == none) = true
          · simp only [closeRow, if_pos hc]
            have hxsid : x.session_id = sid := by
              simp at hc
              exact hc.1
            simp [hxsid, Ne.symm h2]
          · simp only [closeRow, if_neg hc])).symm
    case subs_iff =>
      intro dev'
      constructor
      · intro hmem
        rcases List.mem_filter.mp hmem with ⟨hin, hne⟩
        have hne' : dev' ≠ T.device_id := by simpa using hne
        rcases (hinv.subs_iff dev').mp hin with ⟨s, hsm, hdev'', hact⟩
        have hssid : s.sid ≠ sid := by
          intro hx
          have : s = T := sessions_inj hinv.sid_unique hsm hTmem (by rw [hx, hTsid])
          rw [this] at hdev''
          exact hne' hdev''.symm
        refine ⟨s, ?_, hdev'', hact⟩
        show s ∈ (setSession st.db _).sessions
        rw [setSession_sessions]
        refine List.mem_map.mpr ⟨s, hsm, ?_⟩
        rw [if_neg (by simp [hTsid]; exact hssid)]
      · rintro ⟨s, hsm, hdev'', hact⟩
        rcases hmem' s hsm with h | ⟨h1, h2⟩
        · exfalso
          rw [h] at hact
          simp [finalizeSession] at hact
        · have hin := (hinv.subs_iff dev').mpr ⟨s, h1, hdev'', hact⟩
          have hlive : nonTerminalB s = true := by simp [nonTerminalB, hact]
          have hold := hinv.live_mapped s h1 hlive
          have hne' : dev' ≠ T.device_id := by
            intro hx
            rcases hok T hs with hnone | hsome
            · rw [hdev'', hx, hnone] at hold
              cases hold
            · rw [hdev'', hx, hsome] at hold
              cases hold
              exact h2 rfl
          show dev' ∈ List.filter (fun d => d != T.device_id) st.redis_subscribers
          exact List.mem_filter.mpr ⟨hin, by simpa using hne'⟩
    case subs_nodup =>
      exact List.Nodup.filter _ hinv.subs_nodup
    case dev_registered =>
      intro s hsm
      rcases hmem' s hsm with h | ⟨h1, -⟩
      · rw [h]
        simpa using hinv.dev_registered T hTmem
      · exact hinv.dev_registered s h1

end Streaming

namespace Streaming

/-- Dropping a device's `active_sessions`/`listener_counts` entries keeps
the invariant when the device has no non-terminal session. -/
theorem inv_erase_maps (devices : List DeviceRec) (st : SysState) (dev : String)
    (hinv : Inv devices st)
    (hnone : ∀ s ∈ st.db.sessions, nonTerminalB s = true → s.device_id ≠ dev) :
    Inv devices { st with
      active_sessions := derase st.active_sessions dev
      listener_counts := derase st.listener_counts dev } := by
  constructor
  case sid_fresh => exact hinv.sid_fresh
  case sid_unique => exact hinv.sid_unique
  case rid_fresh => exact hinv.rid_fresh
  case rid_unique => exact hinv.rid_unique
  case row_sid_fresh => exact hinv.row_sid_fresh
  case mapped_exists =>
    intro dev' sid' hlk
    by_cases hdev' : dev' = dev
    · rw [hdev', dlookup_derase_self] at hlk
      cases hlk
    · rw [dlookup_derase_ne _ _ _ hdev'] at hlk
      exact hinv.mapped_exists dev' sid' hlk
  case mapped_dev =>
    intro dev' sid' s hlk hget
    by_cases hdev' : dev' = dev
    · rw [hdev', dlookup_derase_self] at hlk
      cases hlk
    · rw [dlookup_derase_ne _ _ _ hdev'] at hlk
      exact hinv.mapped_dev dev' sid' s hlk hget
  case live_mapped =>
    intro s hsm hlive
    have hne := hnone s hsm hlive
    rw [dlookup_derase_ne _ _ _ hne]
    exact hinv.live_mapped s hsm hlive
  case open_row_live => exact hinv.open_row_live
  case count_rows => exact hinv.count_rows
  case subs_iff => exact hinv.subs_iff
  case subs_nodup => exact hinv.subs_nodup
  case dev_registered => exact hinv.dev_registered

end Streaming

namespace Streaming

theorem find?_append_of_isSome {α : Type} {l l₂ : List α} {p : α → Bool}
    (h : (l.find? p).isSome) : (l ++ l₂).find? p = l.find? p := by
  obtain ⟨a, ha⟩ := Option.isSome_iff_exists.mp h
  rw [List.find?_append, ha]
  rfl

theorem find?_append_of_none {α : Type} {l l₂ : List α} {p : α → Bool}
    (h : l.find? p = none) : (l ++ l₂).find? p = l₂.find? p := by
  rw [List.find?_append, h]
  rfl

/-- Unfolded form of `create_new_session`. -/
theorem create_eq (user : UserCtx) (st : SysState) (now : Nat) (dev : String) :
    create_new_session user st now dev = ({
      db := {
        sessions := st.db.sessions ++ [Session.mk st.db.nextSessionId dev
          user.uid now none Status.requested 0 0 1]
        listeners := st.db.listeners ++ [ListenerRow.mk st.db.nextListenerId
          st.db.nextSessionId user.uid user.username now none 0]
        nextSessionId := st.db.nextSessionId + 1
        nextListenerId := st.db.nextListenerId + 1 }
      active_sessions := dinsert st.active_sessions dev st.db.nextSessionId
      device_sockets := st.device_sockets
      listener_counts := dinsert st.listener_counts dev 1
      redis_subscribers := st.redis_subscribers
      stream_stats := st.stream_stats },
      [Event.stream_requested st.db.nextSessionId dev]) := rfl

/-- Creating a fresh session for a device with no non-terminal session
preserves the invariant. -/
theorem inv_create (devices : List DeviceRec) (user : UserCtx) (st : SysState)
    (now : Nat) (dev : String) (hinv : Inv devices st)
    (hnone : ∀ s ∈ st.db.sessions, nonTerminalB s = true → s.device_id ≠ dev)
    (hreg : ∃ d ∈ devices, dev = d.device_id) :
    Inv devices (create_new_session user st now dev).fst := by
  have hfindnone : st.db.sessions.find?
      (fun t => t.sid == st.db.nextSessionId) = none := by
    rw [List.find?_eq_none]
    intro x hx
    simp only [beq_iff_eq]
    exact Nat.ne_of_lt (hinv.sid_fresh x hx)
  rw [create_eq]
  constructor
  case sid_fresh =>
    intro s hsm
    rcases List.mem_append.mp hsm with h | h
    · exact Nat.lt_succ_of_lt (hinv.sid_fresh s h)
    · rw [List.mem_singleton.mp h]
      exact Nat.lt_succ_self _
  case sid_unique =>
    rw [List.map_append, List.nodup_append]
    refine ⟨hinv.sid_unique, by simp, ?_⟩
    intro x hx
    rcases List.mem_map.mp hx with ⟨u, hu, rfl⟩
    simp only [List.map_cons, List.map_nil, List.mem_singleton]
    exact fun hx2 => Nat.ne_of_lt (hinv.sid_fresh u hu) hx2
  case rid_fresh =>
    intro l hl
    rcases List.mem_append.mp hl with h | h
    · exact Nat.lt_succ_of_lt (hinv.rid_fresh l h)
    · rw [List.mem_singleton.mp h]
      exact Nat.lt_succ_self _
  case rid_unique =>
    rw [List.map_append, List.nodup_append]
    refine ⟨hinv.rid_unique, by simp, ?_⟩
    intro x hx
    rcases List.mem_map.mp hx with ⟨u, hu, rfl⟩
    simp only [List.map_cons, List.map_nil, List.mem_singleton]
    exact fun hx2 => Nat.ne_of_lt (hinv.rid_fresh u hu) hx2
  case row_sid_fresh =>
    intro l hl
    rcases List.mem_append.mp hl with h | h
    · exact Nat.lt_succ_of_lt (hinv.row_sid_fresh l h)
    · rw [List.mem_singleton.mp h]
      exact Nat.lt_succ_self _
  case mapped_exists =>
    intro dev' sid' hlk
    by_cases hdev' : dev' = dev
    · rw [hdev', dlookup_dinsert_self] at hlk
      cases hlk
      show ((st.db.sessions ++ [_]).find? _).isSome = true
      rw [find?_append_of_none hfindnone]
      simp [List.find?_cons]
    · rw [dlookup_dinsert_ne _ _ _ _ hdev'] at hlk
      have hold := hinv.mapped_exists dev' sid' hlk
      show ((st.db.sessions ++ [_]).find? _).isSome = true
      rw [find?_append_of_isSome hold]
      exact hold
  case mapped_dev =>
    intro dev' sid' s hlk hget
    by_cases hdev' : dev' = dev
    · rw [hdev', dlookup_dinsert_self] at hlk
      cases hlk
      rw [show getSession {
          sessions := st.db.sessions ++ [Session.mk st.db.nextSessionId dev
            user.uid now none Status.requested 0 0 1]
          listeners := st.db.listeners ++ [ListenerRow.mk st.db.nextListenerId
            st.db.nextSessionId user.uid user.username now none 0]
          nextSessionId := st.db.nextSessionId + 1
          nextListenerId := st.db.nextListenerId + 1 } st.db.nextSessionId =
          (st.db.sessions ++ [Session.mk st.db.nextSessionId dev
            user.uid now none Status.requested 0 0 1]).find?
            (fun t => t.sid == st.db.nextSessionId) from rfl,
        find?_append_of_none hfindnone] at hget
      simp only [List.find?_cons, beq_self_eq_true] at hget
      cases hget
      exact hdev'.symm ▸ rfl
    · rw [dlookup_dinsert_ne _ _ _ _ hdev'] at hlk
      have hold := hinv.mapped_exists dev' sid' hlk
      rw [show getSession {
          sessions := st.db.sessions ++ [Session.mk st.db.nextSessionId dev
            user.uid now none Status.requested 0 0 1]
          listeners := st.db.listeners ++ [ListenerRow.mk st.db.nextListenerId
            st.db.nextSessionId user.uid user.username now none 0]
          nextSessionId := st.db.nextSessionId + 1
          nextListenerId := st.db.nextListenerId + 1 } sid' =
          (st.db.sessions ++ [Session.mk st.db.nextSessionId dev
            user.uid now none Status.requested 0 0 1]).find?
            (fun t => t.sid == sid') from rfl,
        find?_append_of_isSome hold] at hget
      exact hinv.mapped_dev dev' sid' s hlk hget
  case live_mapped =>
    intro s hsm hlive
    rcases List.mem_append.mp hsm with h | h
    · have hne := hnone s h hlive
      rw [dlookup_dinsert_ne _ _ _ _ hne]
      exact hinv.live_mapped s h hlive
    · rw [List.mem_singleton.mp h]
      show dlookup (dinsert st.active_sessions dev _) dev = _
      rw [dlookup_dinsert_self]
  case open_row_live =>
    intro l hl hopen s hget
    have hgets : ∀ q : Nat, getSession {
        sessions := st.db.sessions ++ [Session.mk st.db.nextSessionId dev
          user.uid now none Status.requested 0 0 1]
        listeners := st.db.listeners ++ [ListenerRow.mk st.db.nextListenerId
          st.db.nextSessionId user.uid user.username now none 0]
        nextSessionId := st.db.nextSessionId + 1
        nextListenerId := st.db.nextListenerId + 1 } q =
        (st.db.sessions ++ [Session.mk st.db.nextSessionId dev
          user.uid now none Status.requested 0 0 1]).find?
          (fun t => t.sid == q) := fun q => rfl
    rcases List.mem_append.mp hl with h | h
    · have hlt : l.session_id < st.db.nextSessionId := hinv.row_sid_fresh l h
      rw [hgets l.session_id] at hget
      cases hold : st.db.sessions.find? (fun t => t.sid == l.session_id) with
      | none =>
        rw [find?_append_of_none hold] at hget
        simp only [List.find?_cons] at hget
        rw [show ((Session.mk st.db.nextSessionId dev user.uid now none
          Status.requested 0 0 1 : Session).sid == l.session_id) = false from
          by simp [Ne.symm (Nat.ne_of_lt hlt)]] at hget
        cases hget
      | some t =>
        rw [find?_append_of_isSome (by simp [hold])] at hget
        refine hinv.open_row_live l h hopen s ?_
        rw [show getSession st.db l.session_id = st.db.sessions.find?
          (fun t => t.sid == l.session_id) from rfl, hold, ← hget, hold]
    · rw [List.mem_singleton.mp h] at hget
      rw [hgets _] at hget
      rw [find?_append_of_none hfindnone] at hget
      simp only [List.find?_cons, beq_self_eq_true] at hget
      cases hget
      rfl
  case count_rows =>
    intro s hsm hlive
    rcases List.mem_append.mp hsm with h | h
    · have hcnt := hinv.count_rows s h hlive
      rw [hcnt]
      congr 1
      rw [openRows, openRows]
      show (List.filter _ st.db.listeners).length =
        (List.filter _ (st.db.listeners ++ [_])).length
      rw [List.filter_append]
      have hz : List.filter (fun l => l.session_id == s.sid && l.left_at == none)
          [ListenerRow.mk st.db.nextListenerId st.db.nextSessionId user.uid
            user.username now none 0] = [] := by
        simp [List.filter_cons, Ne.symm (Nat.ne_of_lt (hinv.sid_fresh s h))]
      rw [hz, List.append_nil]
    · rw [List.mem_singleton.mp h]
      show (1 : Int) = _
      rw [openRows]
      show (1 : Int) = ((List.filter _ (st.db.listeners ++ [_])).length : Int)
      rw [List.filter_append]
      have h1 : List.filter (fun l => l.session_id == st.db.nextSessionId &&
          l.left_at == none) st.db.listeners = [] := by
        rw [List.filter_eq_nil_iff]
        intro x hx
        simp only [Bool.and_eq_true, beq_iff_eq, not_and]
        intro hx2
        exact absurd hx2 (Nat.ne_of_lt (hinv.row_sid_fresh x hx))
      rw [h1]
      simp [List.filter_cons]
  case subs_iff =>
    intro dev'
    rw [hinv.subs_iff dev']
    constructor
    · rintro ⟨s, hsm, hdev'', hact⟩
      exact ⟨s, List.mem_append.mpr (Or.inl hsm), hdev'', hact⟩
    · rintro ⟨s, hsm, hdev'', hact⟩
      rcases List.mem_append.mp hsm with h | h
      · exact ⟨s, h, hdev'', hact⟩
      · exfalso
        rw [List.mem_singleton.mp h] at hact
        cases hact
  case subs_nodup => exact hinv.subs_nodup
  case dev_registered =>
    intro s hsm
    rcases List.mem_append.mp hsm with h | h
    · exact hinv.dev_registered s h
    · rw [List.mem_singleton.mp h]
      simpa using hreg

end Streaming

namespace Streaming

/-- `join_pending` and `join_active` perform the identical state change;
they differ only in what they emit. -/
theorem join_active_fst_eq (user : UserCtx) (st : SysState) (now : Nat)
    (dev : String) (sid : Nat) (session : Session) :
    (join_active user st now dev sid session).fst =
      (join_pending user st now dev sid session).fst := by
  cases h : dlookup st.device_sockets dev <;>
    simp [join_active, join_pending, h]

/-- Unfolded form of `join_pending`'s state change. -/
theorem join_pending_eq (user : UserCtx) (st : SysState) (now : Nat)
    (dev : String) (sid : Nat) (session : Session) :
    (join_pending user st now dev sid session).fst = {
      db := {
        sessions := (setSession st.db
          { session with listener_count := session.listener_count + 1 }).sessions
        listeners := st.db.listeners ++
          [ListenerRow.mk st.db.nextListenerId sid user.uid user.username now none 0]
        nextSessionId := st.db.nextSessionId
        nextListenerId := st.db.nextListenerId + 1 }
      active_sessions := st.active_sessions
      device_sockets := st.device_sockets
      listener_counts := dinsert st.listener_counts dev
        ((dlookup st.listener_counts dev).getD 0 + 1)
      redis_subscribers := st.redis_subscribers
      stream_stats := st.stream_stats } := rfl

/-- Joining an existing tracked non-terminal session preserves the
invariant. -/
theorem inv_join_pending (devices : List DeviceRec) (user : UserCtx)
    (st : SysState) (now : Nat) (dev : String) (sid : Nat) (session : Session)
    (hinv : Inv devices st)
    (hsess : getSession st.db sid = some session)
    (hlive : nonTerminalB session = true) :
    Inv devices (join_pending user st now dev sid session).fst := by
  obtain ⟨hmem, hsid⟩ := getSession_mem hsess
  have hsid1 : ({ session with listener_count := session.listener_count + 1 } :
      Session).sid = sid := by simpa using hsid
  have hmem' : ∀ s', s' ∈ (setSession st.db
      { session with listener_count := session.listener_count + 1 }).sessions →
      s' = { session with listener_count := session.listener_count + 1 } ∨
      (s' ∈ st.db.sessions ∧ s'.sid ≠ sid) := by
    intro s' hs'
    rcases setSession_mem hs' with h | ⟨h1, h2, -⟩
    · exact Or.inl h
    · right
      refine ⟨h1, ?_⟩
      rw [hsid1] at h2
      exact h2
  have hsets : ∀ q : Nat, q ≠ sid →
      getSession (setSession st.db
        { session with listener_count := session.listener_count + 1 }) q =
      getSession st.db q := by
    intro q hq
    exact getSession_set_ne (by rw [hsid1]; exact hq)
  have hsetself : getSession (setSession st.db
      { session with listener_count := session.listener_count + 1 }) sid =
      some { session with listener_count := session.listener_count + 1 } := by
    rw [← hsid1]
    exact getSession_set_self (by rw [hsid1]; exact hsess)
  rw [join_pending_eq]
  constructor
  case sid_fresh =>
    intro s hsm
    rcases hmem' s hsm with h | ⟨h1, -⟩
    · rw [h]
      simpa [hsid] using hinv.sid_fresh session hmem
    · exact hinv.sid_fresh s h1
  case sid_unique =>
    show ((setSession st.db _).sessions.map Session.sid).Nodup
    rw [setSession_sids]
    exact hinv.sid_unique
  case rid_fresh =>
    intro l hl
    rcases List.mem_append.mp hl with h | h
    · exact Nat.lt_succ_of_lt (hinv.rid_fresh l h)
    · rw [List.mem_singleton.mp h]
      exact Nat.lt_succ_self _
  case rid_unique =>
    rw [List.map_append, List.nodup_append]
    refine ⟨hinv.rid_unique, by simp, ?_⟩
    intro x hx
    rcases List.mem_map.mp hx with ⟨u, hu, rfl⟩
    simp only [List.map_cons, List.map_nil, List.mem_singleton]
    exact fun hx2 => Nat.ne_of_lt (hinv.rid_fresh u hu) hx2
  case row_sid_fresh =>
    intro l hl
    rcases List.mem_append.mp hl with h | h
    · exact hinv.row_sid_fresh l h
    · rw [List.mem_singleton.mp h]
      show sid < st.db.nextSessionId
      rw [← hsid]
      exact hinv.sid_fresh session hmem
  case mapped_exists =>
    intro dev' sid' hlk
    exact getSession_set_isSome (hinv.mapped_exists dev' sid' hlk)
  case mapped_dev =>
    intro dev' sid' s hlk hget
    have hget' : getSession (setSession st.db
        { session with listener_count := session.listener_count + 1 }) sid' =
        some s := hget
    by_cases hq : sid' = sid
    · subst hq
      rw [hsetself] at hget'
      cases hget'
      have := hinv.mapped_dev dev' sid' session hlk hsess
      simpa using this
    · rw [hsets sid' hq] at hget'
      exact hinv.mapped_dev dev' sid' s hlk hget'
  case live_mapped =>
    intro s hsm hlive'
    rcases hmem' s hsm with h | ⟨h1, -⟩
    · rw [h]
      have := hinv.live_mapped session hmem hlive
      simpa [hsid] using this
    · exact hinv.live_mapped s h1 hlive'
  case open_row_live =>
    intro l hl hopen s hget
    have hget' : getSession (setSession st.db
        { session with listener_count := session.listener_count + 1 })
        l.session_id = some s := hget
    rcases List.mem_append.mp hl with h | h
    · by_cases hq : l.session_id = sid
      · rw [hq, hsetself] at hget'
        cases hget'
        simpa [nonTerminalB] using hlive
      · rw [hsets _ hq] at hget'
        exact hinv.open_row_live l h hopen s hget'
    · rw [show l.session_id = sid from by rw [List.mem_singleton.mp h],
        hsetself] at hget'
      cases hget'
      simpa [nonTerminalB] using hlive
  case count_rows =>
    intro s hsm hlive'
    rcases hmem' s hsm with h | ⟨h1, h2⟩
    · rw [h]
      show session.listener_count + 1 =
        ((List.filter (fun l => l.session_id == session.sid && l.left_at == none)
          (st.db.listeners ++ [ListenerRow.mk st.db.nextListenerId sid user.uid
            user.username now none 0])).length : Int)
      rw [List.filter_append, List.length_append]
      rw [show List.filter (fun l => l.session_id == session.sid &&
        l.left_at == none) [ListenerRow.mk st.db.nextListenerId sid user.uid
          user.username now none 0] = [ListenerRow.mk st.db.nextListenerId sid
          user.uid user.username now none 0] from by simp [List.filter_cons, hsid]]
      rw [hinv.count_rows session hmem hlive]
      rw [openRows, List.length_singleton]
      push_cast
      ring
    · have hcnt := hinv.count_rows s h1 hlive'
      rw [hcnt]
      congr 1
      rw [openRows, openRows]
      show (List.filter (fun l => l.session_id == s.sid && l.left_at == none)
          st.db.listeners).length =
        (List.filter (fun l => l.session_id == s.sid && l.left_at == none)
          (st.db.listeners ++ [ListenerRow.mk st.db.nextListenerId sid user.uid
            user.username now none 0])).length
      rw [List.filter_append]
      rw [show List.filter (fun l => l.session_id == s.sid && l.left_at == none)
        [ListenerRow.mk st.db.nextListenerId sid user.uid user.username
          now none 0] = [] from by simp [List.filter_cons, Ne.symm h2]]
      rw [List.append_nil]
  case subs_iff =>
    intro dev'
    constructor
    · intro hin
      rcases (hinv.subs_iff dev').mp hin with ⟨s, hsm, hdev'', hact⟩
      by_cases hq : s.sid = sid
      · have hseq : s = session :=
          sessions_inj hinv.sid_unique hsm hmem (by rw [hq, hsid])
        refine ⟨{ session with listener_count := session.listener_count + 1 },
          ?_, ?_, ?_⟩
        · rw [setSession_sessions]
          refine List.mem_map.mpr ⟨session, hmem, ?_⟩
          rw [if_pos (by simp)]
        · rw [hseq] at hdev''
          simpa using hdev''
        · rw [hseq] at hact
          simpa using hact
      · refine ⟨s, ?_, hdev'', hact⟩
        rw [setSession_sessions]
        refine List.mem_map.mpr ⟨s, hsm, ?_⟩
        rw [if_neg (by simp [hsid]; exact hq)]
    · rintro ⟨s, hsm, hdev'', hact⟩
      rcases hmem' s hsm with h | ⟨h1, -⟩
      · refine (hinv.subs_iff dev').mpr ⟨session, hmem, ?_, ?_⟩
        · rw [h] at hdev''
          simpa using hdev''
        · rw [h] at hact
          simpa using hact
      · exact (hinv.subs_iff dev').mpr ⟨s, h1, hdev'', hact⟩
  case subs_nodup => exact hinv.subs_nodup
  case dev_registered =>
    intro s hsm
    rcases hmem' s hsm with h | ⟨h1, -⟩
    · rw [h]
      simpa using hinv.dev_registered session hmem
    · exact hinv.dev_registered s h1

end Streaming

namespace Streaming

/-- An untracked device has no non-terminal session. -/
theorem no_live_of_unmapped (devices : List DeviceRec) (st : SysState)
    (dev : String) (hinv : Inv devices st)
    (hnone : dlookup st.active_sessions dev = none) :
    ∀ s ∈ st.db.sessions, nonTerminalB s = true → s.device_id ≠ dev := by
  intro s hs hl hx
  have hmapped := hinv.live_mapped s hs hl
  rw [hx, hnone] at hmapped
  cases hmapped

/-- `handle_stream_request` preserves the invariant, whatever the input. -/
theorem inv_request (devices : List DeviceRec) (resolve : String → String)
    (user : UserCtx) (st : SysState) (now : Nat) (p : String)
    (hinv : Inv devices st) :
    Inv devices (handle_stream_request devices resolve user st now p).fst := by
  by_cases h1 : user.is_authenticated = true
  case neg =>
    have h1' : user.is_authenticated = false := by
      cases hx : user.is_authenticated
      · rfl
      · exact absurd hx h1
    simpa [handle_stream_request, h1'] using hinv
  case pos =>
  by_cases h2 : p = ""
  case pos => simpa [handle_stream_request, h1, h2] using hinv
  case neg =>
  have h2' : (p == "") = false := by simp [h2]
  cases hd : devices.find? (fun d => d.device_id == resolve p) with
  | none => simpa [handle_stream_request, h1, h2', hd] using hinv
  | some d =>
  have hreg : ∃ d' ∈ devices, resolve p = d'.device_id := by
    refine ⟨d, List.mem_of_find?_eq_some hd, ?_⟩
    have hdd := List.find?_some hd
    exact (show d.device_id = resolve p by simpa using hdd).symm
  by_cases hacc : user.can_access_device (resolve p) = true
  case neg =>
    have hacc' : user.can_access_device (resolve p) = false := by
      cases hx : user.can_access_device (resolve p)
      · rfl
      · exact absurd hx hacc
    simpa [handle_stream_request, h1, h2', hd, hacc'] using hinv
  case pos =>
  cases hmap : dlookup st.active_sessions (resolve p) with
  | none =>
    have hrun : (handle_stream_request devices resolve user st now p) =
        create_new_session user st now (resolve p) := by
      simp [handle_stream_request, h1, h2', hd, hacc, hmap]
    rw [hrun]
    exact inv_create devices user st now (resolve p) hinv
      (no_live_of_unmapped devices st (resolve p) hinv hmap) hreg
  | some sid =>
  cases hsess : getSession st.db sid with
  | none =>
    have hrun : (handle_stream_request devices resolve user st now p) =
        create_new_session user st now (resolve p) := by
      simp [handle_stream_request, h1, h2', hd, hacc, hmap, hsess]
    rw [hrun]
    refine inv_create devices user st now (resolve p) hinv ?_ hreg
    intro s hs hl hx
    have hmapped := hinv.live_mapped s hs hl
    rw [hx, hmap] at hmapped
    cases hmapped
    have := getSession_isSome_of_mem hs
    rw [hsess] at this
    cases this
  | some session =>
  have hsid : session.sid = sid := (getSession_mem hsess).2
  have hdevid : session.device_id = resolve p :=
    hinv.mapped_dev (resolve p) sid session hmap hsess
  cases hstatus : session.status with
  | requested =>
    have heq := request_tracked_requested_eq devices resolve user st now p
      (resolve p) sid session h1 h2 rfl (by simp [hd]) hacc hmap hsess hstatus
    rw [heq]
    by_cases hcond : (120 : Int) < (now : Int) - (session.start_time : Int)
    · rw [if_pos hcond]
      have hstopok : ∀ T, getSession st.db sid = some T →
          dlookup st.active_sessions T.device_id = none ∨
          dlookup st.active_sessions T.device_id = some sid := by
        intro T hT
        rw [hsess] at hT
        cases hT
        right
        rw [hdevid]
        exact hmap
      have hinv1 := inv_stop devices st now sid "timeout" hinv hstopok
      have hmap1 : dlookup (stop_stream_session st now sid
          "timeout").active_sessions (resolve p) = none := by
        rw [stop_eq hsess, hdevid]
        exact dlookup_derase_self _ _
      have hnone1 := no_live_of_unmapped devices _ (resolve p) hinv1 hmap1
      have hinv2 := inv_erase_maps devices _ (resolve p) hinv1 hnone1
      refine inv_create devices user _ now (resolve p) hinv2 ?_ hreg
      exact fun s hs hl => hnone1 s hs hl
    · rw [if_neg hcond]
      exact inv_join_pending devices user st now (resolve p) sid session hinv
        hsess (by simp [nonTerminalB, hstatus])
  | active =>
    have hrun : (handle_stream_request devices resolve user st now p).fst =
        (join_active user st now (resolve p) sid session).fst := by
      have h3' : (!user.can_access_device (resolve p)) = false := by
        simp [hacc]
      simp only [handle_stream_request, h1, Bool.not_true, Bool.false_eq_true,
        if_false, h2', hd, h3', hmap, hsess, hstatus]
      simp
    rw [hrun, join_active_fst_eq]
    exact inv_join_pending devices user st now (resolve p) sid session hinv
      hsess (by simp [nonTerminalB, hstatus])
  | stopped =>
    have hterm : ∀ s ∈ st.db.sessions, nonTerminalB s = true →
        s.device_id ≠ resolve p := by
      intro s hs hl hx
      have hmapped := hinv.live_mapped s hs hl
      rw [hx, hmap] at hmapped
      have hss : s.sid = session.sid := by
        rw [hsid]
        exact (Option.some.inj hmapped).symm
      have hseq : s = session := sessions_inj hinv.sid_unique hs
        (getSession_mem hsess).1 hss
      rw [hseq] at hl
      simp [nonTerminalB, hstatus] at hl
    have hrun : (handle_stream_request devices resolve user st now p) =
        create_new_session user { st with
          active_sessions := derase st.active_sessions (resolve p)
          listener_counts := derase st.listener_counts (resolve p) } now
          (resolve p) := by
      simp [handle_stream_request, h1, h2', hd, hacc, hmap, hsess, hstatus]
    rw [hrun]
    exact inv_create devices user _ now (resolve p)
      (inv_erase_maps devices st (resolve p) hinv hterm) hterm hreg
  | error =>
    have hterm : ∀ s ∈ st.db.sessions, nonTerminalB s = true →
        s.device_id ≠ resolve p := by
      intro s hs hl hx
      have hmapped := hinv.live_mapped s hs hl
      rw [hx, hmap] at hmapped
      have hss : s.sid = session.sid := by
        rw [hsid]
        exact (Option.some.inj hmapped).symm
      have hseq : s = session := sessions_inj hinv.sid_unique hs
        (getSession_mem hsess).1 hss
      rw [hseq] at hl
      simp [nonTerminalB, hstatus] at hl
    have hrun : (handle_stream_request devices resolve user st now p) =
        create_new_session user { st with
          active_sessions := derase st.active_sessions (resolve p)
          listener_counts := derase st.listener_counts (resolve p) } now
          (resolve p) := by
      simp [handle_stream_request, h1, h2', hd, hacc, hmap, hsess, hstatus]
    rw [hrun]
    exact inv_create devices user _ now (resolve p)
      (inv_erase_maps devices st (resolve p) hinv hterm) hterm hreg

end Streaming

namespace Streaming

/-- With a sane registry, a session of a registered device can only pass the
`stream_ready` device check by the direct match. -/
theorem device_match_direct (devices : List DeviceRec) (hwf : RegistryWF devices)
    (session : Session) (device : DeviceRec)
    (hreg : ∃ d ∈ devices, session.device_id = d.device_id)
    (hmatch : ((session.device_id == device.device_id) ||
      (match get_android_id_for_device devices device.device_id with
       | some a => session.device_id == a
       | none => false)) = true) :
    session.device_id = device.device_id := by
  rcases Bool.or_eq_true_iff.mp hmatch with h | h
  · exact beq_iff_eq.mp h
  · exfalso
    cases hga : get_android_id_for_device devices device.device_id with
    | none =>
      rw [hga] at h
      cases h
    | some a =>
      rw [hga] at h
      have hsa : session.device_id = a := beq_iff_eq.mp h
      rw [get_android_id_for_device] at hga
      cases hfind : devices.find? (fun d => d.device_id == device.device_id) with
      | none =>
        rw [hfind] at hga
        cases hga
      | some d' =>
        rw [hfind] at hga
        have had' : a = d'.android_id := (Option.some.inj hga).symm
        have hd'mem : d' ∈ devices := List.mem_of_find?_eq_some hfind
        rcases hreg with ⟨d'', hd''mem, hdd⟩
        exact hwf.1 d'' hd''mem d' hd'mem (by rw [← hdd, hsa, had'])

end Streaming

namespace Streaming

/-- Activating a tracked non-terminal session and registering its subscriber
preserves the invariant (body of a successful `stream_ready`). -/
theorem inv_activate (devices : List DeviceRec) (st : SysState) (sid : Nat)
    (session : Session) (dev : String) (hinv : Inv devices st)
    (hsess : getSession st.db sid = some session)
    (hlive : nonTerminalB session = true)
    (hdev : session.device_id = dev) :
    Inv devices { st with
      db := setSession st.db { session with status := Status.active }
      redis_subscribers := if dev ∈ st.redis_subscribers then
        st.redis_subscribers else st.redis_subscribers ++ [dev] } := by
  obtain ⟨hmem, hsid⟩ := getSession_mem hsess
  have hsid1 : ({ session with status := Status.active } : Session).sid = sid := by
    simpa using hsid
  have hmem' : ∀ s', s' ∈ (setSession st.db
      { session with status := Status.active }).sessions →
      s' = { session with status := Status.active } ∨
      (s' ∈ st.db.sessions ∧ s'.sid ≠ sid) := by
    intro s' hs'
    rcases setSession_mem hs' with h | ⟨h1, h2, -⟩
    · exact Or.inl h
    · right
      exact ⟨h1, by rw [hsid1] at h2; exact h2⟩
  have hsets : ∀ q : Nat, q ≠ sid →
      getSession (setSession st.db { session with status := Status.active }) q =
      getSession st.db q :=
    fun q hq => getSession_set_ne (by rw [hsid1]; exact hq)
  have hsetself : getSession (setSession st.db
      { session with status := Status.active }) sid =
      some { session with status := Status.active } := by
    rw [← hsid1]
    exact getSession_set_self (by rw [hsid1]; exact hsess)
  have hsessmem : ({ session with status := Status.active } : Session) ∈
      (setSession st.db { session with status := Status.active }).sessions := by
    rw [setSession_sessions]
    exact List.mem_map.mpr ⟨session, hmem, by rw [if_pos (by simp)]⟩
  constructor
  case sid_fresh =>
    intro s hsm
    rcases hmem' s hsm with h | ⟨h1, -⟩
    · rw [h]
      simpa [hsid] using hinv.sid_fresh session hmem
    · exact hinv.sid_fresh s h1
  case sid_unique =>
    show ((setSession st.db _).sessions.map Session.sid).Nodup
    rw [setSession_sids]
    exact hinv.sid_unique
  case rid_fresh => exact hinv.rid_fresh
  case rid_unique => exact hinv.rid_unique
  case row_sid_fresh => exact hinv.row_sid_fresh
  case mapped_exists =>
    intro dev' sid' hlk
    exact getSession_set_isSome (hinv.mapped_exists dev' sid' hlk)
  case mapped_dev =>
    intro dev' sid' s hlk hget
    have hget' : getSession (setSession st.db
        { session with status := Status.active }) sid' = some s := hget
    by_cases hq : sid' = sid
    · subst hq
      rw [hsetself] at hget'
      cases hget'
      simpa using hinv.mapped_dev dev' sid' session hlk hsess
    · rw [hsets sid' hq] at hget'
      exact hinv.mapped_dev dev' sid' s hlk hget'
  case live_mapped =>
    intro s hsm hlive'
    rcases hmem' s hsm with h | ⟨h1, -⟩
    · rw [h]
      simpa [hsid] using hinv.live_mapped session hmem hlive
    · exact hinv.live_mapped s h1 hlive'
  case open_row_live =>
    intro l hl hopen s hget
    have hget' : getSession (setSession st.db
        { session with status := Status.active }) l.session_id = some s := hget
    by_cases hq : l.session_id = sid
    · rw [hq, hsetself] at hget'
      cases hget'
      simp [nonTerminalB]
    · rw [hsets _ hq] at hget'
      exact hinv.open_row_live l hl hopen s hget'
  case count_rows =>
    intro s hsm hlive'
    rcases hmem' s hsm with h | ⟨h1, -⟩
    · rw [h]
      show session.listener_count = _
      have := hinv.count_rows session hmem hlive
      rw [this]
      congr 1
    · have := hinv.count_rows s h1 hlive'
      rw [this]
      congr 1
  case subs_iff =>
    intro dev'
    by_cases hd' : dev' = dev
    · subst hd'
      constructor
      · intro _
        exact ⟨{ session with status := Status.active }, hsessmem,
          by simpa using hdev, rfl⟩
      · intro _
        by_cases hc : dev' ∈ st.redis_subscribers
        · rw [if_pos hc]
          exact hc
        · rw [if_neg hc]
          simp
    · have hpres : (∃ s, s ∈ (setSession st.db { session with
          status := Status.active }).sessions ∧ s.device_id = dev' ∧
          s.status = Status.active) ↔
          (∃ s ∈ st.db.sessions, s.device_id = dev' ∧ s.status = Status.active) := by
        constructor
        · rintro ⟨s, hsm, hdd, hact⟩
          rcases hmem' s hsm with h | ⟨h1, -⟩
          · exfalso
            rw [h] at hdd
            simp at hdd
            rw [hdev] at hdd
            exact hd' hdd.symm
          · exact ⟨s, h1, hdd, hact⟩
        · rintro ⟨s, hsm, hdd, hact⟩
          by_cases hq : s.sid = sid
          · exfalso
            have hseq : s = session := sessions_inj hinv.sid_unique hsm hmem
              (by rw [hq, hsid])
            rw [hseq, hdev] at hdd
            exact hd' hdd.symm
          · refine ⟨s, ?_, hdd, hact⟩
            rw [setSession_sessions]
            exact List.mem_map.mpr ⟨s, hsm, by rw [if_neg (by simp [hsid]; exact hq)]⟩
      have hmemsub : (dev' ∈ (if dev ∈ st.redis_subscribers then
          st.redis_subscribers else st.redis_subscribers ++ [dev])) ↔
          dev' ∈ st.redis_subscribers := by
        by_cases hc : dev ∈ st.redis_subscribers
        · rw [if_pos hc]
        · rw [if_neg hc]
          simp [hd']
      constructor
      · intro hin
        exact hpres.mpr ((hinv.subs_iff dev').mp (hmemsub.mp hin))
      · intro hex
        exact hmemsub.mpr ((hinv.subs_iff dev').mpr (hpres.mp hex))
  case subs_nodup =>
    by_cases hc : dev ∈ st.redis_subscribers
    · rw [if_pos hc]
      exact hinv.subs_nodup
    · rw [if_neg hc]
      rw [List.nodup_append]
      refine ⟨hinv.subs_nodup, by simp, ?_⟩
      intro x hx
      simp only [List.mem_singleton]
      intro hx2
      rw [hx2] at hx
      exact hc hx
  case dev_registered =>
    intro s hsm
    rcases hmem' s hsm with h | ⟨h1, -⟩
    · rw [h]
      simpa using hinv.dev_registered session hmem
    · exact hinv.dev_registered s h1

end Streaming

namespace Streaming

/-- `handle_stream_ready` preserves the invariant when Redis is up, every
alias is from a sane registry, and the message addresses a session that is
still non-terminal. -/
theorem inv_ready (devices : List DeviceRec) (redis_ok : Bool) (st : SysState)
    (aid sid_str : String) (hwf : RegistryWF devices) (hinv : Inv devices st)
    (hredis : redis_ok = true)
    (hguard : ∀ s, ready_target devices st.db aid sid_str = some s →
      nonTerminalB s = true) :
    Inv devices (handle_stream_ready devices redis_ok st aid sid_str).fst := by
  by_cases h0 : (aid == "" || sid_str == "") = true
  · simpa [handle_stream_ready, h0] using hinv
  · have h0' : (aid == "" || sid_str == "") = false := by simpa using h0
    cases hdev : findByAndroidId devices aid with
    | none => simpa [handle_stream_ready, h0', hdev] using hinv
    | some device =>
      cases hparse : parse_int sid_str with
      | none => simpa [handle_stream_ready, h0', hdev, hparse] using hinv
      | some sid =>
        cases hsess : getSession st.db sid with
        | none => simpa [handle_stream_ready, h0', hdev, hparse, hsess] using hinv
        | some session =>
          by_cases hm : ((session.device_id == device.device_id) ||
              (match get_android_id_for_device devices device.device_id with
               | some a => session.device_id == a
               | none => false)) = true
          · have hlive : nonTerminalB session = true := by
              refine hguard session ?_
              simp [ready_target, h0', hdev, hparse, hsess]
            have hdirect := device_match_direct devices hwf session device
              (hinv.dev_registered session (getSession_mem hsess).1) hm
            have hrun : (handle_stream_ready devices redis_ok st aid
                sid_str).fst = { st with
              db := setSession st.db { session with status := Status.active }
              redis_subscribers :=
                if device.device_id ∈ st.redis_subscribers then
                  st.redis_subscribers
                else st.redis_subscribers ++ [device.device_id] } := by
              subst hredis
              by_cases hc : device.device_id ∈ st.redis_subscribers
              · simp [handle_stream_ready, h0', hdev, hparse, hsess, hm, hc,
                  start_redis_subscriber]
              · simp [handle_stream_ready, h0', hdev, hparse, hsess, hm, hc,
                  start_redis_subscriber]
            rw [hrun]
            exact inv_activate devices st sid session device.device_id hinv
              hsess hlive hdirect
          · have hm' : ((session.device_id == device.device_id) ||
                (match get_android_id_for_device devices device.device_id with
                 | some a => session.device_id == a
                 | none => false)) = false := by simpa using hm
            simpa [handle_stream_ready, h0', hdev, hparse, hsess, hm']
              using hinv

end Streaming

namespace Streaming

/-- With unique row keys, two listener rows with the same id coincide. -/
theorem rows_inj {L : List ListenerRow}
    (hnd : (L.map ListenerRow.rid).Nodup) {x y : ListenerRow}
    (hx : x ∈ L) (hy : y ∈ L) (h : x.rid = y.rid) : x = y :=
  List.inj_on_of_nodup_map hnd hx hy h

/-- Rewriting one row by key removes exactly one matching row from a filter
count, when the old row matched and the new one does not. -/
theorem close_one_count (q : Nat) (L : List ListenerRow) (r nr : ListenerRow)
    (hnd : (L.map ListenerRow.rid).Nodup) (hr : r ∈ L)
    (hrid : nr.rid = r.rid)
    (hopen : (r.session_id == q && r.left_at == none) = true)
    (hnr : (nr.session_id == q && nr.left_at == none) = false) :
    ((L.map (fun t => if t.rid == nr.rid then nr else t)).filter
      (fun l => l.session_id == q && l.left_at == none)).length + 1 =
    (L.filter (fun l => l.session_id == q && l.left_at == none)).length := by
  induction L with
  | nil => cases hr
  | cons a t ih =>
    have hnda : a.rid ∉ t.map ListenerRow.rid := (List.nodup_cons.mp hnd).1
    have hndt : (t.map ListenerRow.rid).Nodup := (List.nodup_cons.mp hnd).2
    rcases List.mem_cons.mp hr with rfl | hrt
    · rw [List.map_cons, if_pos (by simp [hrid])]
      have htid : t.map (fun u => if u.rid == nr.rid then nr else u) = t := by
        refine map_eq_self_of_fix (fun u hu => ?_)
        rw [if_neg]
        simp only [hrid, beq_iff_eq]
        intro hx
        exact hnda (by rw [← hx]; exact List.mem_map_of_mem _ hu)
      rw [htid, List.filter_cons, List.filter_cons, hopen, hnr]
      simp
    · have hane : (a.rid == nr.rid) = false := by
        simp only [hrid, beq_eq_false_iff_ne]
        intro hx
        exact hnda (by rw [hx]; exact List.mem_map_of_mem _ hrt)
      rw [List.map_cons, hane]
      simp only [if_false, Bool.false_eq_true]
      rw [List.filter_cons, List.filter_cons]
      cases hpa : (a.session_id == q && a.left_at == none) with
      | true =>
        simp only [List.length_cons, if_true]
        have hiht := ih hndt hrt
        simp at hiht ⊢
        omega
      | false =>
        exact ih hndt hrt

/-- Rewriting one row by key leaves filter counts of other sessions
unchanged, when old and new row agree on the predicate. -/
theorem close_one_count_other (q : Nat) (L : List ListenerRow)
    (r nr : ListenerRow) (hnd : (L.map ListenerRow.rid).Nodup) (hr : r ∈ L)
    (hrid : nr.rid = r.rid)
    (hrq : (r.session_id == q && r.left_at == none) =
      (nr.session_id == q && nr.left_at == none)) :
    ((L.map (fun t => if t.rid == nr.rid then nr else t)).filter
      (fun l => l.session_id == q && l.left_at == none)).length =
    (L.filter (fun l => l.session_id == q && l.left_at == none)).length := by
  refine length_filter_map_congr (fun x hx => ?_)
  by_cases hc : (x.rid == nr.rid) = true
  · have hxr : x = r := rows_inj hnd hx hr (by rw [← hrid]; exact beq_iff_eq.mp hc)
    rw [if_pos hc, hxr, hrq]
  · rw [if_neg (by simpa using (by simpa using hc : ¬ x.rid = nr.rid))]

end Streaming

namespace Streaming

/-- Closing one open listener row of a tracked session and decrementing the
session's count preserves the invariant (body of `handle_leave_stream` and
of one `handle_user_disconnect` iteration, before any teardown). -/
theorem inv_decrement (devices : List DeviceRec) (st : SysState) (now : Nat)
    (dev : String) (sid : Nat) (session : Session) (r : ListenerRow)
    (hinv : Inv devices st)
    (hsess : getSession st.db sid = some session)
    (hrmem : r ∈ st.db.listeners) (hrsid : r.session_id = sid)
    (hropen : r.left_at = none) :
    Inv devices { st with
      db := setSession (setListener st.db { r with
          left_at := some now
          duration_seconds := (now : Int) - (r.joined_at : Int) })
        { session with listener_count := max 0 (session.listener_count - 1) }
      listener_counts := dinsert st.listener_counts dev
        (max 0 (session.listener_count - 1)) } := by
  obtain ⟨hmem, hsid⟩ := getSession_mem hsess
  have hlive : nonTerminalB session = true :=
    hinv.open_row_live r hrmem hropen session (by rw [hrsid]; exact hsess)
  have hsid1 : ({ session with
      listener_count := max 0 (session.listener_count - 1) } : Session).sid =
      sid := by simpa using hsid
  have hsessions : (setListener st.db { r with
      left_at := some now
      duration_seconds := (now : Int) - (r.joined_at : Int) }).sessions =
      st.db.sessions := rfl
  have hmem' : ∀ s', s' ∈ (setSession (setListener st.db { r with
      left_at := some now
      duration_seconds := (now : Int) - (r.joined_at : Int) })
      { session with listener_count := max 0 (session.listener_count - 1) }).sessions →
      s' = { session with listener_count := max 0 (session.listener_count - 1) } ∨
      (s' ∈ st.db.sessions ∧ s'.sid ≠ sid) := by
    intro s' hs'
    rcases setSession_mem hs' with h | ⟨h1, h2, -⟩
    · exact Or.inl h
    · right
      exact ⟨h1, by rw [hsid1] at h2; exact h2⟩
  have hsetget : getSession (setListener st.db { r with
      left_at := some now
      duration_seconds := (now : Int) - (r.joined_at : Int) }) sid =
      some session := hsess
  have hsets : ∀ q : Nat, q ≠ sid →
      getSession (setSession (setListener st.db { r with
        left_at := some now
        duration_seconds := (now : Int) - (r.joined_at : Int) })
        { session with listener_count := max 0 (session.listener_count - 1) }) q =
      getSession st.db q :=
    fun q hq => getSession_set_ne (by rw [hsid1]; exact hq)
  have hsetself : getSession (setSession (setListener st.db { r with
      left_at := some now
      duration_seconds := (now : Int) - (r.joined_at : Int) })
      { session with listener_count := max 0 (session.listener_count - 1) }) sid =
      some { session with listener_count := max 0 (session.listener_count - 1) } := by
    rw [← hsid1]
    exact getSession_set_self (by rw [hsid1]; exact hsetget)
  have hrow_mem' : ∀ l', l' ∈ (setListener st.db { r with
      left_at := some now
      duration_seconds := (now : Int) - (r.joined_at : Int) }).listeners →
      l' = { r with left_at := some now
                    duration_seconds := (now : Int) - (r.joined_at : Int) } ∨
      (l' ∈ st.db.listeners ∧ l'.rid ≠ r.rid) := by
    intro l' hl'
    rcases setListener_mem hl' with h | ⟨h1, h2⟩
    · exact Or.inl h
    · exact Or.inr ⟨h1, by simpa using h2⟩
  constructor
  case sid_fresh =>
    intro s hsm
    rcases hmem' s hsm with h | ⟨h1, -⟩
    · rw [h]
      simpa [hsid] using hinv.sid_fresh session hmem
    · exact hinv.sid_fresh s h1
  case sid_unique =>
    show ((setSession _ _).sessions.map Session.sid).Nodup
    rw [setSession_sids]
    exact hinv.sid_unique
  case rid_fresh =>
    intro l hl
    rcases hrow_mem' l hl with h | ⟨h1, -⟩
    · rw [h]
      simpa using hinv.rid_fresh r hrmem
    · exact hinv.rid_fresh l h1
  case rid_unique =>
    show ((setListener _ _).listeners.map ListenerRow.rid).Nodup
    rw [setListener_rids]
    exact hinv.rid_unique
  case row_sid_fresh =>
    intro l hl
    rcases hrow_mem' l hl with h | ⟨h1, -⟩
    · rw [h]
      simpa using hinv.row_sid_fresh r hrmem
    · exact hinv.row_sid_fresh l h1
  case mapped_exists =>
    intro dev' sid' hlk
    exact getSession_set_isSome (hinv.mapped_exists dev' sid' hlk)
  case mapped_dev =>
    intro dev' sid' s hlk hget
    have hget' : getSession (setSession (setListener st.db { r with
        left_at := some now
        duration_seconds := (now : Int) - (r.joined_at : Int) })
        { session with listener_count := max 0 (session.listener_count - 1) })
        sid' = some s := hget
    by_cases hq : sid' = sid
    · subst hq
      rw [hsetself] at hget'
      cases hget'
      simpa using hinv.mapped_dev dev' sid' session hlk hsess
    · rw [hsets sid' hq] at hget'
      exact hinv.mapped_dev dev' sid' s hlk hget'
  case live_mapped =>
    intro s hsm hlive'
    rcases hmem' s hsm with h | ⟨h1, -⟩
    · rw [h]
      simpa [hsid] using hinv.live_mapped session hmem hlive
    · exact hinv.live_mapped s h1 hlive'
  case open_row_live =>
    intro l hl hopen s hget
    have hget' : getSession (setSession (setListener st.db { r with
        left_at := some now
        duration_seconds := (now : Int) - (r.joined_at : Int) })
        { session with listener_count := max 0 (session.listener_count - 1) })
        l.session_id = some s := hget
    rcases hrow_mem' l hl with h | ⟨h1, -⟩
    · exfalso
      rw [h] at hopen
      cases hopen
    · by_cases hq : l.session_id = sid
      · rw [hq, hsetself] at hget'
        cases hget'
        simpa [nonTerminalB] using hlive
      · rw [hsets _ hq] at hget'
        exact hinv.open_row_live l h1 hopen s hget'
  case count_rows =>
    intro s hsm hlive'
    have hgez : (0 : Int) ≤ session.listener_count := by
      rw [hinv.count_rows session hmem hlive]
      positivity
    rcases hmem' s hsm with h | ⟨h1, h2⟩
    · have hslc : s.listener_count = max 0 (session.listener_count - 1) := by rw [h]
      have hssid : s.sid = sid := by rw [h]; exact hsid1
      rw [hslc, hssid]
      have hc := hinv.count_rows session hmem hlive
      simp only [openRows] at hc
      rw [hsid] at hc
      have hone : 1 ≤ (List.filter (fun l => l.session_id == sid &&
          l.left_at == none) st.db.listeners).length := by
        have hrin : r ∈ List.filter (fun l => l.session_id == sid &&
            l.left_at == none) st.db.listeners :=
          List.mem_filter.mpr ⟨hrmem, by simp [hrsid, hropen]⟩
        exact List.length_pos_of_mem hrin
      have hclose := close_one_count sid st.db.listeners r
        { r with left_at := some now
                 duration_seconds := (now : Int) - (r.joined_at : Int) }
        hinv.rid_unique hrmem rfl (by simp [hrsid, hropen]) (by simp)
      simp only [openRows, setSession_listeners, setListener_listeners]
      show max 0 (session.listener_count - 1) = ((List.filter (fun l => l.session_id == sid && l.left_at == none) (List.map (fun t => if t.rid == r.rid then ({ r with left_at := some now, duration_seconds := (now : Int) - (r.joined_at : Int) } : ListenerRow) else t) st.db.listeners)).length : Int)
      have hclose2 : (List.filter (fun l => l.session_id == sid && l.left_at == none) (List.map (fun t => if t.rid == r.rid then ({ r with left_at := some now, duration_seconds := (now : Int) - (r.joined_at : Int) } : ListenerRow) else t) st.db.listeners)).length + 1 = (List.filter (fun l => l.session_id == sid && l.left_at == none) st.db.listeners).length := hclose
      clear hclose
      omega
    · have hc := hinv.count_rows s h1 hlive'
      rw [hc]
      have hother := close_one_count_other s.sid st.db.listeners r
        { r with left_at := some now
                 duration_seconds := (now : Int) - (r.joined_at : Int) }
        hinv.rid_unique hrmem rfl (by
          have hrs : (r.session_id == s.sid) = false := by
            simp only [beq_eq_false_iff_ne]
            rw [hrsid]
            exact fun hx => h2 hx.symm
          simp [hrs])
      simp only [openRows, setSession_listeners, setListener_listeners]
      rw [hother]
  case subs_iff =>
    intro dev'
    constructor
    · intro hin
      rcases (hinv.subs_iff dev').mp hin with ⟨s, hsm, hdev'', hact⟩
      by_cases hq : s.sid = sid
      · have hseq : s = session := sessions_inj hinv.sid_unique hsm hmem
          (by rw [hq, hsid])
        refine ⟨{ session with
          listener_count := max 0 (session.listener_count - 1) }, ?_, ?_, ?_⟩
        · rw [setSession_sessions]
          refine List.mem_map.mpr ⟨session, ?_, ?_⟩
          · exact hmem
          · rw [if_pos (by simp)]
        · rw [hseq] at hdev''
          simpa using hdev''
        · rw [hseq] at hact
          simpa using hact
      · refine ⟨s, ?_, hdev'', hact⟩
        rw [setSession_sessions]
        refine List.mem_map.mpr ⟨s, hsm, ?_⟩
        rw [if_neg (by simp [hsid]; exact hq)]
    · rintro ⟨s, hsm, hdev'', hact⟩
      rcases hmem' s hsm with h | ⟨h1, -⟩
      · refine (hinv.subs_iff dev').mpr ⟨session, hmem, ?_, ?_⟩
        · rw [h] at hdev''
          simpa using hdev''
        · rw [h] at hact
          simpa using hact
      · exact (hinv.subs_iff dev').mpr ⟨s, h1, hdev'', hact⟩
  case subs_nodup => exact hinv.subs_nodup
  case dev_registered =>
    intro s hsm
    rcases hmem' s hsm with h | ⟨h1, -⟩
    · rw [h]
      simpa using hinv.dev_registered session hmem
    · exact hinv.dev_registered s h1

end Streaming

namespace Streaming

/-- `handle_leave_stream` preserves the invariant: the decrement path is
`inv_decrement` and the zero-count teardown is `inv_stop` with the mapping
side condition discharged from `mapped_dev`. -/
theorem inv_leave (devices : List DeviceRec) (user : UserCtx) (st : SysState)
    (now : Nat) (device_id : String) (hinv : Inv devices st) :
    Inv devices (handle_leave_stream user st now device_id).fst := by
  by_cases hauth : user.is_authenticated = true
  case neg =>
    have hf : user.is_authenticated = false := by
      cases h : user.is_authenticated
      · rfl
      · exact absurd h hauth
    simpa [handle_leave_stream, hf] using hinv
  case pos =>
  by_cases hempty : (device_id == "") = true
  · simpa [handle_leave_stream, hauth, hempty] using hinv
  · have hempty' : (device_id == "") = false := by simpa using hempty
    cases hmap : dlookup st.active_sessions device_id with
    | none => simpa [handle_leave_stream, hauth, hempty', hmap] using hinv
    | some session_id =>
      cases hfind : st.db.listeners.find? (fun l =>
          l.session_id == session_id && l.user_id == user.uid &&
          l.left_at == none) with
      | none => simpa [handle_leave_stream, hauth, hempty', hmap, hfind] using hinv
      | some listener =>
        have hlm : listener ∈ st.db.listeners := List.mem_of_find?_eq_some hfind
        have hlp := List.find?_some hfind
        have hlsid : listener.session_id = session_id := by
          simp only [Bool.and_eq_true, beq_iff_eq] at hlp
          exact hlp.1.1
        have hlopen : listener.left_at = none := by
          simp only [Bool.and_eq_true, beq_iff_eq] at hlp
          exact hlp.2
        have hisome : (getSession st.db session_id).isSome = true :=
          hinv.mapped_exists device_id session_id hmap
        cases hsess : getSession st.db session_id with
        | none => rw [hsess] at hisome; cases hisome
        | some session =>
          have hdevid : session.device_id = device_id :=
            hinv.mapped_dev device_id session_id session hmap hsess
          have hssid : session.sid = session_id := (getSession_mem hsess).2
          have hsess2 : getSession (setListener st.db { listener with left_at := some now, duration_seconds := (now : Int) - (listener.joined_at : Int) }) session_id = some session := hsess
          have hdec := inv_decrement devices st now device_id session_id
            session listener hinv hsess hlm hlsid hlopen
          by_cases hz : ((max 0 (session.listener_count - 1) : Int) == 0) = true
          · have hrun : (handle_leave_stream user st now device_id).fst =
              stop_stream_session { st with
                db := setSession (setListener st.db { listener with left_at := some now, duration_seconds := (now : Int) - (listener.joined_at : Int) }) { session with listener_count := max 0 (session.listener_count - 1) }
                listener_counts := dinsert st.listener_counts device_id (max 0 (session.listener_count - 1)) } now session_id "no_listeners" := by
              simp [handle_leave_stream, hauth, hempty', hmap, hfind, hsess2, hz]
            rw [hrun]
            refine inv_stop devices _ now session_id "no_listeners" hdec ?_
            intro T hT
            right
            have hgs : getSession (setSession (setListener st.db { listener with left_at := some now, duration_seconds := (now : Int) - (listener.joined_at : Int) }) { session with listener_count := max 0 (session.listener_count - 1) }) session_id = some { session with listener_count := max 0 (session.listener_count - 1) } := by
              have hsid1 : ({ session with listener_count := max 0 (session.listener_count - 1) } : Session).sid = session_id := by simpa using hssid
              rw [← hsid1]
              exact getSession_set_self (by rw [hsid1]; exact hsess2)
            have hT' : getSession (setSession (setListener st.db { listener with left_at := some now, duration_seconds := (now : Int) - (listener.joined_at : Int) }) { session with listener_count := max 0 (session.listener_count - 1) }) session_id = some T := hT
            rw [hgs] at hT'
            cases hT'
            show dlookup st.active_sessions
              ({ session with listener_count := max 0 (session.listener_count - 1) } : Session).device_id = some session_id
            have hd2 : ({ session with listener_count := max 0 (session.listener_count - 1) } : Session).device_id = device_id := by simpa using hdevid
            rw [hd2]
            exact hmap
          · have hz' : ((max 0 (session.listener_count - 1) : Int) == 0) = false := by
              simpa using hz
            have hrun : (handle_leave_stream user st now device_id).fst =
              { st with
                db := setSession (setListener st.db { listener with left_at := some now, duration_seconds := (now : Int) - (listener.joined_at : Int) }) { session with listener_count := max 0 (session.listener_count - 1) }
                listener_counts := dinsert st.listener_counts device_id (max 0 (session.listener_count - 1)) } := by
              simp [handle_leave_stream, hauth, hempty', hmap, hfind, hsess2, hz']
            rw [hrun]
            exact hdec

end Streaming

namespace Streaming

/-- A list containing two distinct elements has length at least two. -/
theorem two_le_length_of_mem_ne {α : Type} {l : List α} {a b : α}
    (ha : a ∈ l) (hb : b ∈ l) (hne : a ≠ b) : 2 ≤ l.length := by
  induction l with
  | nil => cases ha
  | cons x t ih =>
    rcases List.mem_cons.mp ha with rfl | ha'
    · rcases List.mem_cons.mp hb with rfl | hb'
      · exact absurd rfl hne
      · have := List.length_pos_of_mem hb'
        simp only [List.length_cons]
        omega
    · have := List.length_pos_of_mem ha'
      simp only [List.length_cons]
      omega

/-- A row whose key differs from the written one survives `setListener`
unchanged. -/
theorem mem_setListener_of_ne {db : DB} {l t : ListenerRow}
    (ht : t ∈ db.listeners) (hne : t.rid ≠ l.rid) :
    t ∈ (setListener db l).listeners := by
  rw [setListener_listeners]
  have hm := List.mem_map_of_mem (fun u => if u.rid == l.rid then l else u) ht
  simpa [hne] using hm

/-- A row of another session survives the teardown row sweep unchanged. -/
theorem mem_closeRow_map_of_ne {L : List ListenerRow} {t : ListenerRow}
    (sid now : Nat) (ht : t ∈ L) (hne : t.session_id ≠ sid) :
    t ∈ L.map (closeRow sid now) := by
  have hm := List.mem_map_of_mem (closeRow sid now) ht
  have hfix : closeRow sid now t = t := by
    simp [closeRow, hne]
  rwa [hfix] at hm

/-- The invariant only reads the database, the session map and the
subscriber list, so it transports along states agreeing there. -/
theorem inv_congr (devices : List DeviceRec) (st st' : SysState)
    (hdb : st'.db = st.db) (hact : st'.active_sessions = st.active_sessions)
    (hsubs : st'.redis_subscribers = st.redis_subscribers)
    (hinv : Inv devices st) : Inv devices st' := by
  constructor
  · rw [hdb]; exact hinv.sid_fresh
  · rw [hdb]; exact hinv.sid_unique
  · rw [hdb]; exact hinv.rid_fresh
  · rw [hdb]; exact hinv.rid_unique
  · rw [hdb]; exact hinv.row_sid_fresh
  · rw [hact, hdb]; exact hinv.mapped_exists
  · rw [hact, hdb]; exact hinv.mapped_dev
  · rw [hdb, hact]; exact hinv.live_mapped
  · rw [hdb]; exact hinv.open_row_live
  · rw [hdb]; exact hinv.count_rows
  · rw [hsubs, hdb]; exact hinv.subs_iff
  · rw [hsubs]; exact hinv.subs_nodup
  · rw [hdb]; exact hinv.dev_registered

/-- Closing a listener row whose session id matches no stored session
preserves the invariant (degenerate branch of `disconnect_one` and
`handle_leave_stream`). -/
theorem inv_close_row_only (devices : List DeviceRec) (st : SysState)
    (now : Nat) (l0 : ListenerRow) (hinv : Inv devices st)
    (hl0 : l0 ∈ st.db.listeners)
    (hnos : getSession st.db l0.session_id = none) :
    Inv devices { st with db := setListener st.db { l0 with
      left_at := some now
      duration_seconds := (now : Int) - (l0.joined_at : Int) } } := by
  have hrow_mem' : ∀ l', l' ∈ (setListener st.db { l0 with
      left_at := some now
      duration_seconds := (now : Int) - (l0.joined_at : Int) }).listeners →
      l' = { l0 with left_at := some now
                     duration_seconds := (now : Int) - (l0.joined_at : Int) } ∨
      (l' ∈ st.db.listeners ∧ l'.rid ≠ l0.rid) := by
    intro l' hl'
    rcases setListener_mem hl' with h | ⟨h1, h2⟩
    · exact Or.inl h
    · exact Or.inr ⟨h1, by simpa using h2⟩
  constructor
  case sid_fresh => exact hinv.sid_fresh
  case sid_unique => exact hinv.sid_unique
  case rid_fresh =>
    intro l hl
    rcases hrow_mem' l hl with h | ⟨h1, -⟩
    · rw [h]
      simpa using hinv.rid_fresh l0 hl0
    · exact hinv.rid_fresh l h1
  case rid_unique =>
    show ((setListener _ _).listeners.map ListenerRow.rid).Nodup
    rw [setListener_rids]
    exact hinv.rid_unique
  case row_sid_fresh =>
    intro l hl
    rcases hrow_mem' l hl with h | ⟨h1, -⟩
    · rw [h]
      simpa using hinv.row_sid_fresh l0 hl0
    · exact hinv.row_sid_fresh l h1
  case mapped_exists => exact hinv.mapped_exists
  case mapped_dev => exact hinv.mapped_dev
  case live_mapped => exact hinv.live_mapped
  case open_row_live =>
    intro l hl hopen s hget
    rcases hrow_mem' l hl with h | ⟨h1, -⟩
    · exfalso
      rw [h] at hopen
      cases hopen
    · exact hinv.open_row_live l h1 hopen s hget
  case count_rows =>
    intro s hs hl
    have hne : s.sid ≠ l0.session_id := by
      have := List.find?_eq_none.mp hnos s hs
      simpa using this
    have hother := close_one_count_other s.sid st.db.listeners l0
      ({ l0 with left_at := some now, duration_seconds := (now : Int) - (l0.joined_at : Int) })
      hinv.rid_unique hl0 rfl (by
        have h1 : (l0.session_id == s.sid) = false := by
          simp only [beq_eq_false_iff_ne]
          exact fun hx => hne hx.symm
        simp [h1])
    show s.listener_count = ((List.filter (fun l => l.session_id == s.sid && l.left_at == none) (List.map (fun t => if t.rid == l0.rid then ({ l0 with left_at := some now, duration_seconds := (now : Int) - (l0.joined_at : Int) } : ListenerRow) else t) st.db.listeners)).length : Int)
    have h2 : openRows st.db s.sid = (List.filter (fun l => l.session_id == s.sid && l.left_at == none) (List.map (fun t => if t.rid == l0.rid then ({ l0 with left_at := some now, duration_seconds := (now : Int) - (l0.joined_at : Int) } : ListenerRow) else t) st.db.listeners)).length := hother.symm
    rw [hinv.count_rows s hs hl, h2]
  case subs_iff => exact hinv.subs_iff
  case subs_nodup => exact hinv.subs_nodup
  case dev_registered => exact hinv.dev_registered

end Streaming

namespace Streaming

/-- One disconnect iteration on a still-open row preserves the invariant,
and every other still-open row stays open: the teardown it may trigger
fires only when the closed row was the last open row of its session. -/
theorem inv_disconnect_one (devices : List DeviceRec) (st : SysState)
    (now rid : Nat) (hinv : Inv devices st) (hopen : OpenRid st rid) :
    Inv devices (disconnect_one st now rid) ∧
    ∀ r', r' ≠ rid → OpenRid st r' → OpenRid (disconnect_one st now rid) r' := by
  obtain ⟨l0w, hl0wmem, hl0wrid, hl0wopen⟩ := hopen
  cases hfind : st.db.listeners.find? (fun l => l.rid == rid) with
  | none =>
    exfalso
    have := List.find?_eq_none.mp hfind l0w hl0wmem
    simp [hl0wrid] at this
  | some l0 =>
    have hl0mem : l0 ∈ st.db.listeners := List.mem_of_find?_eq_some hfind
    have hl0rid : l0.rid = rid := by
      have := List.find?_some hfind
      simpa using this
    have hl0eq : l0 = l0w :=
      rows_inj hinv.rid_unique hl0mem hl0wmem (by rw [hl0rid, hl0wrid])
    have hl0open : l0.left_at = none := by rw [hl0eq]; exact hl0wopen
    have hgeq : getSession (setListener st.db { l0 with left_at := some now, duration_seconds := (now : Int) - (l0.joined_at : Int) }) l0.session_id = getSession st.db l0.session_id := rfl
    cases hget : getSession st.db l0.session_id with
    | none =>
      have hrun : disconnect_one st now rid = { st with db := setListener st.db { l0 with left_at := some now, duration_seconds := (now : Int) - (l0.joined_at : Int) } } := by
        simp [disconnect_one, hfind, hgeq, hget]
      rw [hrun]
      refine ⟨inv_close_row_only devices st now l0 hinv hl0mem hget, ?_⟩
      rintro r' hne' ⟨l', hl'm, hl'rid, hl'open⟩
      refine ⟨l', ?_, hl'rid, hl'open⟩
      exact mem_setListener_of_ne hl'm (by
        simpa using (by rw [hl'rid, hl0rid]; exact hne' : l'.rid ≠ l0.rid))
    | some session =>
      have hlive : nonTerminalB session = true :=
        hinv.open_row_live l0 hl0mem hl0open session hget
      have hsid2 : session.sid = l0.session_id := (getSession_mem hget).2
      have hdec := inv_decrement devices st now session.device_id
        l0.session_id session l0 hinv hget hl0mem rfl hl0open
      by_cases hz : ((max 0 (session.listener_count - 1) : Int) == 0) = true
      · have hrun : disconnect_one st now rid =
          stop_stream_session { st with
            db := setSession (setListener st.db { l0 with left_at := some now, duration_seconds := (now : Int) - (l0.joined_at : Int) }) { session with listener_count := max 0 (session.listener_count - 1) }
            listener_counts := dinsert st.listener_counts session.device_id (max 0 (session.listener_count - 1)) } now session.sid "no_listeners" := by
          simp [disconnect_one, hfind, hgeq, hget, hz]
        have hag : getSession (setListener st.db { l0 with left_at := some now, duration_seconds := (now : Int) - (l0.joined_at : Int) }) (({ session with listener_count := max 0 (session.listener_count - 1) } : Session).sid) = some session := by
          show getSession st.db session.sid = some session
          rw [hsid2]
          exact hget
        have hgs := getSession_set_self hag
        have hmapped : dlookup st.active_sessions session.device_id =
            some session.sid :=
          hinv.live_mapped session (getSession_mem hget).1 hlive
        have hok : ∀ T, getSession (setSession (setListener st.db { l0 with left_at := some now, duration_seconds := (now : Int) - (l0.joined_at : Int) }) { session with listener_count := max 0 (session.listener_count - 1) }) session.sid = some T →
            dlookup st.active_sessions T.device_id = none ∨
            dlookup st.active_sessions T.device_id = some session.sid := by
          intro T hT
          right
          have hT' : getSession (setSession (setListener st.db { l0 with left_at := some now, duration_seconds := (now : Int) - (l0.joined_at : Int) }) { session with listener_count := max 0 (session.listener_count - 1) }) (({ session with listener_count := max 0 (session.listener_count - 1) } : Session).sid) = some T := hT
          rw [hgs] at hT'
          cases hT'
          show dlookup st.active_sessions session.device_id = some session.sid
          exact hmapped
        constructor
        · rw [hrun]
          exact inv_stop devices _ now session.sid "no_listeners" hdec hok
        · rintro r' hne' ⟨l', hl'm, hl'rid, hl'open⟩
          have hnerid : l'.rid ≠ l0.rid := by
            rw [hl'rid, hl0rid]
            exact hne'
          have hnesid : l'.session_id ≠ session.sid := by
            intro hsidq
            have hl0f : l0 ∈ List.filter (fun l => l.session_id == session.sid
                && l.left_at == none) st.db.listeners :=
              List.mem_filter.mpr ⟨hl0mem, by
                simp only [Bool.and_eq_true, beq_iff_eq]
                exact ⟨hsid2.symm, hl0open⟩⟩
            have hl'f : l' ∈ List.filter (fun l => l.session_id == session.sid
                && l.left_at == none) st.db.listeners :=
              List.mem_filter.mpr ⟨hl'm, by
                simp only [Bool.and_eq_true, beq_iff_eq]
                exact ⟨hsidq, hl'open⟩⟩
            have hne0 : l0 ≠ l' := fun he => hnerid (by rw [he])
            have h2 := two_le_length_of_mem_ne hl0f hl'f hne0
            have hc := hinv.count_rows session (getSession_mem hget).1 hlive
            have hz' : max 0 (session.listener_count - 1) = 0 := by
              simpa using hz
            rw [hc] at hz'
            have h2' : 2 ≤ openRows st.db session.sid := h2
            omega
          rw [hrun]
          refine ⟨l', ?_, hl'rid, hl'open⟩
          have hll : (stop_stream_session { st with
              db := setSession (setListener st.db { l0 with left_at := some now, duration_seconds := (now : Int) - (l0.joined_at : Int) }) { session with listener_count := max 0 (session.listener_count - 1) }
              listener_counts := dinsert st.listener_counts session.device_id (max 0 (session.listener_count - 1)) } now session.sid "no_listeners").db.listeners =
              ((setListener st.db { l0 with left_at := some now, duration_seconds := (now : Int) - (l0.joined_at : Int) }).listeners).map (closeRow session.sid now) := by
            rw [stop_eq hgs]
            rfl
          rw [hll]
          exact mem_closeRow_map_of_ne session.sid now
            (mem_setListener_of_ne hl'm (by simpa using hnerid)) hnesid
      · have hz' : ((max 0 (session.listener_count - 1) : Int) == 0) = false := by
          simpa using hz
        have hrun : disconnect_one st now rid = { st with
            db := setSession (setListener st.db { l0 with left_at := some now, duration_seconds := (now : Int) - (l0.joined_at : Int) }) { session with listener_count := max 0 (session.listener_count - 1) }
            listener_counts := dinsert st.listener_counts session.device_id (max 0 (session.listener_count - 1)) } := by
          simp [disconnect_one, hfind, hgeq, hget, hz']
        rw [hrun]
        refine ⟨hdec, ?_⟩
        rintro r' hne' ⟨l', hl'm, hl'rid, hl'open⟩
        refine ⟨l', ?_, hl'rid, hl'open⟩
        show l' ∈ (setListener st.db { l0 with left_at := some now, duration_seconds := (now : Int) - (l0.joined_at : Int) }).listeners
        exact mem_setListener_of_ne hl'm (by
          simpa using (by rw [hl'rid, hl0rid]; exact hne' : l'.rid ≠ l0.rid))

end Streaming

namespace Streaming

/-- Folding `disconnect_one` over distinct still-open row ids preserves the
invariant. -/
theorem inv_fold_disconnect (devices : List DeviceRec) (now : Nat) :
    ∀ (rs : List Nat) (st : SysState), Inv devices st → rs.Nodup →
      (∀ r ∈ rs, OpenRid st r) →
      Inv devices (rs.foldl (fun s r => disconnect_one s now r) st) := by
  intro rs
  induction rs with
  | nil =>
    intro st hinv _ _
    exact hinv
  | cons r t ih =>
    intro st hinv hnd hop
    simp only [List.foldl_cons]
    obtain ⟨h1, h2⟩ := inv_disconnect_one devices st now r hinv
      (hop r (List.mem_cons_self r t))
    refine ih (disconnect_one st now r) h1 (List.nodup_cons.mp hnd).2 ?_
    intro r' hr'
    refine h2 r' ?_ (hop r' (List.mem_cons_of_mem r hr'))
    intro he
    exact (List.nodup_cons.mp hnd).1 (he ▸ hr')

/-- `handle_user_disconnect` preserves the invariant: the snapshot holds
distinct rids of rows open at snapshot time, and each iteration keeps the
others open. -/
theorem inv_user_disconnect (devices : List DeviceRec) (user : UserCtx)
    (st : SysState) (now : Nat) (hinv : Inv devices st) :
    Inv devices (handle_user_disconnect user st now) := by
  by_cases hauth : user.is_authenticated = true
  · have hrun : handle_user_disconnect user st now =
      ((st.db.listeners.filter (fun l => l.user_id == user.uid &&
        l.left_at == none)).map (fun l => l.rid)).foldl
        (fun s r => disconnect_one s now r) st := by
      simp [handle_user_disconnect, hauth]
    rw [hrun]
    refine inv_fold_disconnect devices now _ st hinv ?_ ?_
    · have hsub : List.Sublist (st.db.listeners.filter
          (fun l => l.user_id == user.uid && l.left_at == none))
          st.db.listeners := List.filter_sublist _
      have hsubm := hsub.map (fun l => l.rid)
      exact List.Nodup.sublist hsubm hinv.rid_unique
    · intro r hr
      rcases List.mem_map.mp hr with ⟨l, hlf, rfl⟩
      have hm := List.mem_filter.mp hlf
      refine ⟨l, hm.1, rfl, ?_⟩
      have hp := hm.2
      simp only [Bool.and_eq_true, beq_iff_eq] at hp
      exact hp.2
  · have hf : user.is_authenticated = false := by
      cases h : user.is_authenticated
      · rfl
      · exact absurd h hauth
    simpa [handle_user_disconnect, hf] using hinv

end Streaming

namespace Streaming

/-- Rewriting one stored session's final byte counter (and anything in the
stats cache) preserves the invariant: no invariant field reads
`bytes_transferred` or `stream_stats`. -/
theorem inv_set_bytes (devices : List DeviceRec) (st : SysState) (sid : Nat)
    (session : Session) (b : Nat) (S : List (String × StreamStat))
    (hinv : Inv devices st) (hsess : getSession st.db sid = some session) :
    Inv devices { st with
      db := setSession st.db { session with bytes_transferred := b }
      stream_stats := S } := by
  obtain ⟨hmem, hsid⟩ := getSession_mem hsess
  have hsid1 : ({ session with bytes_transferred := b } : Session).sid = sid := by
    simpa using hsid
  have hmem' : ∀ s', s' ∈ (setSession st.db
      { session with bytes_transferred := b }).sessions →
      s' = { session with bytes_transferred := b } ∨
      (s' ∈ st.db.sessions ∧ s'.sid ≠ sid) := by
    intro s' hs'
    rcases setSession_mem hs' with h | ⟨h1, h2, -⟩
    · exact Or.inl h
    · right
      exact ⟨h1, by rw [hsid1] at h2; exact h2⟩
  have hsets : ∀ q : Nat, q ≠ sid →
      getSession (setSession st.db { session with bytes_transferred := b }) q =
      getSession st.db q :=
    fun q hq => getSession_set_ne (by rw [hsid1]; exact hq)
  have hsetself : getSession (setSession st.db
      { session with bytes_transferred := b }) sid =
      some { session with bytes_transferred := b } := by
    rw [← hsid1]
    exact getSession_set_self (by rw [hsid1]; exact hsess)
  constructor
  case sid_fresh =>
    intro s hsm
    rcases hmem' s hsm with h | ⟨h1, -⟩
    · rw [h]
      simpa [hsid] using hinv.sid_fresh session hmem
    · exact hinv.sid_fresh s h1
  case sid_unique =>
    show ((setSession _ _).sessions.map Session.sid).Nodup
    rw [setSession_sids]
    exact hinv.sid_unique
  case rid_fresh => exact hinv.rid_fresh
  case rid_unique => exact hinv.rid_unique
  case row_sid_fresh => exact hinv.row_sid_fresh
  case mapped_exists =>
    intro dev' sid' hlk
    exact getSession_set_isSome (hinv.mapped_exists dev' sid' hlk)
  case mapped_dev =>
    intro dev' sid' s hlk hget
    have hget' : getSession (setSession st.db
        { session with bytes_transferred := b }) sid' = some s := hget
    by_cases hq : sid' = sid
    · subst hq
      rw [hsetself] at hget'
      cases hget'
      simpa using hinv.mapped_dev dev' sid' session hlk hsess
    · rw [hsets sid' hq] at hget'
      exact hinv.mapped_dev dev' sid' s hlk hget'
  case live_mapped =>
    intro s hsm hlive'
    rcases hmem' s hsm with h | ⟨h1, -⟩
    · have hl0 : nonTerminalB session = true := by
        rw [h] at hlive'
        simpa [nonTerminalB] using hlive'
      rw [h]
      simpa [hsid] using hinv.live_mapped session hmem hl0
    · exact hinv.live_mapped s h1 hlive'
  case open_row_live =>
    intro l hl hopen s hget
    have hget' : getSession (setSession st.db
        { session with bytes_transferred := b }) l.session_id = some s := hget
    by_cases hq : l.session_id = sid
    · rw [hq, hsetself] at hget'
      cases hget'
      have := hinv.open_row_live l hl hopen session (by rw [hq]; exact hsess)
      simpa [nonTerminalB] using this
    · rw [hsets _ hq] at hget'
      exact hinv.open_row_live l hl hopen s hget'
  case count_rows =>
    intro s hsm hlive'
    rcases hmem' s hsm with h | ⟨h1, -⟩
    · have hl0 : nonTerminalB session = true := by
        rw [h] at hlive'
        simpa [nonTerminalB] using hlive'
      have hslc : s.listener_count = session.listener_count := by rw [h]
      have hssid : s.sid = sid := by rw [h]; exact hsid1
      rw [hslc, hssid]
      have hc := hinv.count_rows session hmem hl0
      rw [hsid] at hc
      exact hc
    · have hc := hinv.count_rows s h1 hlive'
      exact hc
  case subs_iff =>
    intro dev'
    constructor
    · intro hin
      rcases (hinv.subs_iff dev').mp hin with ⟨s, hsm, hdev'', hact⟩
      by_cases hq : s.sid = sid
      · have hseq : s = session := sessions_inj hinv.sid_unique hsm hmem
          (by rw [hq, hsid])
        refine ⟨{ session with bytes_transferred := b }, ?_, ?_, ?_⟩
        · rw [setSession_sessions]
          refine List.mem_map.mpr ⟨session, hmem, ?_⟩
          rw [if_pos (by simp)]
        · rw [hseq] at hdev''
          simpa using hdev''
        · rw [hseq] at hact
          simpa using hact
      · refine ⟨s, ?_, hdev'', hact⟩
        rw [setSession_sessions]
        refine List.mem_map.mpr ⟨s, hsm, ?_⟩
        rw [if_neg (by simp [hsid]; exact hq)]
    · rintro ⟨s, hsm, hdev'', hact⟩
      rcases hmem' s hsm with h | ⟨h1, -⟩
      · refine (hinv.subs_iff dev').mpr ⟨session, hmem, ?_, ?_⟩
        · rw [h] at hdev''
          simpa using hdev''
        · rw [h] at hact
          simpa using hact
      · exact (hinv.subs_iff dev').mpr ⟨s, h1, hdev'', hact⟩
  case subs_nodup => exact hinv.subs_nodup
  case dev_registered =>
    intro s hsm
    rcases hmem' s hsm with h | ⟨h1, -⟩
    · rw [h]
      simpa using hinv.dev_registered session hmem
    · exact hinv.dev_registered s h1

/-- One flusher iteration preserves the invariant. -/
theorem inv_flush_one (devices : List DeviceRec) (st : SysState) (now : Nat)
    (p : String × StreamStat) (hinv : Inv devices st) :
    Inv devices (flush_one st now p) := by
  cases hmap : dlookup st.active_sessions p.fst with
  | none =>
    have hrun : flush_one st now p =
        { st with stream_stats := derase st.stream_stats p.fst } := by
      simp [flush_one, hmap]
    rw [hrun]
    exact inv_congr devices st _ rfl rfl rfl hinv
  | some session_id =>
    cases hget : getSession st.db session_id with
    | none =>
      have hrun : flush_one st now p = st := by
        simp [flush_one, hmap, hget]
      rw [hrun]
      exact hinv
    | some session =>
      cases hcur : dlookup st.stream_stats p.fst with
      | none =>
        have hrun : flush_one st now p = { st with
            db := setSession st.db
              { session with bytes_transferred := p.snd.bytes }
            stream_stats := st.stream_stats } := by
          simp [flush_one, hmap, hget, hcur]
        rw [hrun]
        exact inv_set_bytes devices st session_id session p.snd.bytes
          st.stream_stats hinv hget
      | some cur =>
        have hrun : flush_one st now p = { st with
            db := setSession st.db
              { session with bytes_transferred := p.snd.bytes }
            stream_stats := dinsert st.stream_stats p.fst
              { cur with last_flush := now } } := by
          simp [flush_one, hmap, hget, hcur]
        rw [hrun]
        exact inv_set_bytes devices st session_id session p.snd.bytes
          (dinsert st.stream_stats p.fst { cur with last_flush := now })
          hinv hget

/-- The flusher's snapshot loop preserves the invariant. -/
theorem inv_flush (devices : List DeviceRec) (now : Nat) :
    ∀ (ps : List (String × StreamStat)) (st : SysState), Inv devices st →
      Inv devices (ps.foldl (fun s p => flush_one s now p) st) := by
  intro ps
  induction ps with
  | nil =>
    intro st hinv
    exact hinv
  | cons p t ih =>
    intro st hinv
    simp only [List.foldl_cons]
    exact ih (flush_one st now p) (inv_flush_one devices st now p hinv)

/-- `handle_device_connect` preserves the invariant: it only records the
producer socket. -/
theorem inv_device_connect (devices : List DeviceRec) (st : SysState)
    (aid sock : String) (hinv : Inv devices st) :
    Inv devices (handle_device_connect devices st aid sock) := by
  by_cases h0 : (aid == "") = true
  · simpa [handle_device_connect, h0] using hinv
  · have h0' : (aid == "") = false := by simpa using h0
    cases hf : findByAndroidId devices aid with
    | none => simpa [handle_device_connect, h0', hf] using hinv
    | some device =>
      have hrun : handle_device_connect devices st aid sock = { st with
          device_sockets := dinsert st.device_sockets device.device_id sock } := by
        simp [handle_device_connect, h0', hf]
      rw [hrun]
      exact inv_congr devices st _ rfl rfl rfl hinv

/-- `handle_device_disconnect` preserves the invariant: forgetting the
socket touches nothing the invariant reads, and the teardown's mapping side
condition comes from `mapped_dev`. -/
theorem inv_device_disconnect (devices : List DeviceRec) (st : SysState)
    (now : Nat) (sock : String) (hinv : Inv devices st) :
    Inv devices (handle_device_disconnect st now sock) := by
  cases hf : st.device_sockets.find? (fun p => p.snd == sock) with
  | none => simpa [handle_device_disconnect, hf] using hinv
  | some p =>
    have hinv1 : Inv devices { st with
        device_sockets := derase st.device_sockets p.fst } :=
      inv_congr devices st _ rfl rfl rfl hinv
    cases hmap : dlookup st.active_sessions p.fst with
    | none =>
      have hrun : handle_device_disconnect st now sock = { st with
          device_sockets := derase st.device_sockets p.fst } := by
        simp [handle_device_disconnect, hf, hmap]
      rw [hrun]
      exact hinv1
    | some session_id =>
      have hrun : handle_device_disconnect st now sock =
          stop_stream_session { st with
            device_sockets := derase st.device_sockets p.fst } now
            session_id "device_disconnected" := by
        simp [handle_device_disconnect, hf, hmap]
      rw [hrun]
      refine inv_stop devices _ now session_id "device_disconnected" hinv1 ?_
      intro T hT
      right
      have hT' : getSession st.db session_id = some T := hT
      have hd := hinv.mapped_dev p.fst session_id T hmap hT'
      show dlookup st.active_sessions T.device_id = some session_id
      rw [hd]
      exact hmap

end Streaming

namespace Streaming

/-- `handle_audio_chunk` preserves the invariant: it only touches the
in-memory stats accumulator. -/
theorem inv_chunk (devices : List DeviceRec) (st : SysState) (now : Nat)
    (aid c : String) (hinv : Inv devices st) :
    Inv devices (handle_audio_chunk devices st now aid c) := by
  by_cases h0 : (aid == "" || c == "") = true
  · simpa [handle_audio_chunk, h0] using hinv
  · have h0' : (aid == "" || c == "") = false := by simpa using h0
    cases hf : findByAndroidId devices aid with
    | none => simpa [handle_audio_chunk, h0', hf] using hinv
    | some device =>
      by_cases hm : dmem st.active_sessions device.device_id = true
      · refine inv_congr devices st _ ?_ ?_ ?_ hinv <;>
          simp [handle_audio_chunk, h0', hf, hm]
      · have hm' : dmem st.active_sessions device.device_id = false := by
          cases hx : dmem st.active_sessions device.device_id
          · rfl
          · exact absurd hx hm
        simpa [handle_audio_chunk, h0', hf, hm'] using hinv

/-- Every guarded handler invocation preserves the invariant. -/
theorem inv_applyAct (devices : List DeviceRec) (st : SysState) (a : Act)
    (hwf : RegistryWF devices) (hinv : Inv devices st)
    (hgood : goodAct devices st a) :
    Inv devices (applyAct devices st a) := by
  cases a with
  | request resolve user now p =>
    exact inv_request devices resolve user st now p hinv
  | ready redis_ok aid sid_str =>
    exact inv_ready devices redis_ok st aid sid_str hwf hinv hgood.1 hgood.2
  | chunk now aid c => exact inv_chunk devices st now aid c hinv
  | leave user now dev => exact inv_leave devices user st now dev hinv
  | user_disconnect user now =>
    exact inv_user_disconnect devices user st now hinv
  | device_connect aid sock => exact inv_device_connect devices st aid sock hinv
  | device_disconnect now sock =>
    exact inv_device_disconnect devices st now sock hinv
  | flush now => exact inv_flush devices now st.stream_stats st hinv

/-- The fresh process satisfies the invariant. -/
theorem inv_init (devices : List DeviceRec) : Inv devices initState := by
  constructor <;> simp [initState, dlookup, getSession, openRows, nonTerminalB]

/-- Every reachable state of a process with a well-formed registry
satisfies the invariant. -/
theorem greach_inv (devices : List DeviceRec) (st : SysState)
    (hwf : RegistryWF devices) (h : GReach devices st) : Inv devices st := by
  induction h with
  | init => exact inv_init devices
  | step st' a hst hgood ih => exact inv_applyAct devices st' a hwf ih hgood

end Streaming

namespace Streaming

/-- A duplicate-free list whose elements are pairwise equal has at most one
element. -/
theorem length_le_one_of_nodup_all_eq {α : Type} {L : List α} (hnd : L.Nodup)
    (h : ∀ a ∈ L, ∀ b ∈ L, a = b) : L.length ≤ 1 := by
  cases L with
  | nil => simp
  | cons x t =>
    cases t with
    | nil => simp
    | cons y u =>
      exfalso
      have hxy : x = y := h x (by simp) y (by simp)
      have hx : x ∉ y :: u := (List.nodup_cons.mp hnd).1
      exact hx (by rw [hxy]; simp)

/-- The one-device registry is well formed. -/
theorem registryWF_ex : RegistryWF exDevices := ⟨by decide, by decide⟩

/-- `exS1` (one `request_live_stream` for `D1` at `t = 0`) is reachable. -/
theorem greach_exS1 : GReach exDevices exS1 :=
  GReach.step initState (Act.request exResolve exAlice 0 "D1") GReach.init
    trivial

/-- The state after a timely `stream_ready` on `exS1` is reachable: the
`ready` guard holds because session 0 is still `requested`. -/
theorem greach_exReady :
    GReach exDevices (applyAct exDevices exS1 (Act.ready true "A1" "0")) :=
  GReach.step exS1 (Act.ready true "A1" "0") greach_exS1
    ⟨rfl, by
      intro s hs
      have h0 : ready_target exDevices exS1.db "A1" "0" = some exSession0 := by
        decide
      rw [h0] at hs
      cases hs
      decide⟩

/-- C1 (amended): in every state reachable under the guard that
`stream_ready` is only delivered for a still non-terminal session, each
canonical device id has at most one session in status `requested` or
`active`; without that guard a late `stream_ready` for a stopped session
revives it next to the fresh one (see the counterexample). -/
theorem at_most_one_live_session_per_device (devices : List DeviceRec)
    (st : SysState) (dev : String) (hwf : RegistryWF devices)
    (hre : GReach devices st) : liveSessionCount st.db dev ≤ 1 := by
  have hinv := greach_inv devices st hwf hre
  have hall : ∀ a ∈ st.db.sessions.filter
      (fun s => nonTerminalB s && s.device_id == dev),
      ∀ b ∈ st.db.sessions.filter
      (fun s => nonTerminalB s && s.device_id == dev), a.sid = b.sid := by
    intro a ha b hb
    obtain ⟨ha1, ha2⟩ := List.mem_filter.mp ha
    obtain ⟨hb1, hb2⟩ := List.mem_filter.mp hb
    simp only [Bool.and_eq_true, beq_iff_eq] at ha2 hb2
    have h1 := hinv.live_mapped a ha1 ha2.1
    have h2 := hinv.live_mapped b hb1 hb2.1
    rw [ha2.2] at h1
    rw [hb2.2] at h2
    exact Option.some.inj (h1.symm.trans h2)
  have hnd : ((st.db.sessions.filter
      (fun s => nonTerminalB s && s.device_id == dev)).map Session.sid).Nodup :=
    List.Nodup.sublist ((List.filter_sublist _).map Session.sid)
      hinv.sid_unique
  have hle : ((st.db.sessions.filter
      (fun s => nonTerminalB s && s.device_id == dev)).map Session.sid).length
      ≤ 1 := by
    refine length_le_one_of_nodup_all_eq hnd ?_
    intro a ha b hb
    rcases List.mem_map.mp ha with ⟨x, hx, rfl⟩
    rcases List.mem_map.mp hb with ⟨y, hy, rfl⟩
    exact hall x hx y hy
  simpa [liveSessionCount] using hle

/-- Witness for the amended C1: after the single request of `exS1`, device
`D1` has exactly one live session, within the proved bound. -/
theorem at_most_one_live_session_per_device_witness :
    RegistryWF exDevices ∧ GReach exDevices exS1 ∧
      liveSessionCount exS1.db "D1" ≤ 1 :=
  ⟨registryWF_ex, greach_exS1,
    at_most_one_live_session_per_device exDevices exS1 "D1" registryWF_ex
      greach_exS1⟩

/-- C5 (amended): in every reachable state (same guard as C1) and for every
session still in a non-terminal status, `listener_count` is non-negative
and equals the number of that session's listener rows with `left_at` null;
for terminal sessions the equality fails, because the timeout teardown
closes the rows but never clears the count (see the counterexample). -/
theorem live_listener_count_matches_open_rows (devices : List DeviceRec)
    (st : SysState) (s : Session) (hwf : RegistryWF devices)
    (hre : GReach devices st) (hs : s ∈ st.db.sessions)
    (hlive : nonTerminalB s = true) :
    0 ≤ s.listener_count ∧
      s.listener_count = (openRows st.db s.sid : Int) := by
  have hinv := greach_inv devices st hwf hre
  have hc := hinv.count_rows s hs hlive
  refine ⟨?_, hc⟩
  rw [hc]
  positivity

/-- Witness for the amended C5: session 0 of `exS1` is `requested` with
`listener_count = 1` and one open row. -/
theorem live_listener_count_matches_open_rows_witness :
    exSession0 ∈ exS1.db.sessions ∧ nonTerminalB exSession0 = true ∧
      (0 ≤ exSession0.listener_count ∧
        exSession0.listener_count = (openRows exS1.db exSession0.sid : Int)) :=
  ⟨by decide, by decide,
    live_listener_count_matches_open_rows exDevices exS1 exSession0
      registryWF_ex greach_exS1 (by decide) (by decide)⟩

/-- C8 (amended): in every reachable state (same guard as C1), a device has
a subscriber entry iff it has a session with status `active`, and the
subscriber list is duplicate-free; without the guard, tearing down one of
two sessions revived onto the same device removes the subscriber while an
`active` session remains (see the counterexample). -/
theorem subscriber_iff_active_session (devices : List DeviceRec)
    (st : SysState) (dev : String) (hwf : RegistryWF devices)
    (hre : GReach devices st) :
    (dev ∈ st.redis_subscribers ↔
      ∃ s ∈ st.db.sessions, s.device_id = dev ∧ s.status = Status.active) ∧
    st.redis_subscribers.Nodup := by
  have hinv := greach_inv devices st hwf hre
  exact ⟨hinv.subs_iff dev, hinv.subs_nodup⟩

/-- Witness for the amended C8: after the guarded `stream_ready`, `D1` has
both the subscriber and the `active` session. -/
theorem subscriber_iff_active_session_witness :
    (("D1" ∈ (applyAct exDevices exS1
        (Act.ready true "A1" "0")).redis_subscribers) ↔
      ∃ s ∈ (applyAct exDevices exS1 (Act.ready true "A1" "0")).db.sessions,
        s.device_id = "D1" ∧ s.status = Status.active) ∧
    (applyAct exDevices exS1 (Act.ready true "A1" "0")).redis_subscribers.Nodup :=
  subscriber_iff_active_session exDevices _ "D1" registryWF_ex greach_exReady

end Streaming
